import Mathlib

/-!
Verification development for the klayout-pex technology-description generator
(src/cxx/gen_tech_pb).  The data model below embeds the kpex.tech message
schema as it is used by the construction API in protobuf.cpp / protobuf.h /
proto.h / proto.cpp and by the PDK producer modules (pdk/sky130A.cpp,
pdk/ihp_sg13g2.cpp, pdk/gf180mcuD.cpp).  The generated schema headers
(tech.pb.h / tech.capnp.h, produced from tech.proto / tech.capnp) are not part
of src/, so field sets and defaults are taken from the construction calls that
populate them; numeric double/float fields are modelled as rationals
(the serialization layer under study copies them verbatim, so exactness of the
carrier does not affect any statement proved here).
-/

namespace KpexTech

/-- GDS layer/datatype pair (kpex.tech.GDSPair), as initialized by
proto.h setLayerInfos via initDrwGDSPair/initPinGDSPair/initLabelGDSPair. -/
structure GDSPair where
  layer : Nat := 0
  datatype : Nat := 0
deriving DecidableEq

/-- Layer purpose enumeration (kpex.tech.LayerInfo.Purpose); the listed values
are the ones referenced by the PDK modules.  The UNSPECIFIED value models the
proto3 zero value of the enum. -/
inductive Purpose where
  | PURPOSE_UNSPECIFIED
  | PURPOSE_DNWELL
  | PURPOSE_NWELL
  | PURPOSE_PWELL
  | PURPOSE_DIFF
  | PURPOSE_NTAP_OR_PTAP
  | PURPOSE_NTAP
  | PURPOSE_PTAP
  | PURPOSE_P_IMPLANT
  | PURPOSE_N_IMPLANT
  | PURPOSE_CONTACT
  | PURPOSE_METAL
  | PURPOSE_VIA
  | PURPOSE_MIM_CAP
deriving DecidableEq

/-- Drawn mask layer record (kpex.tech.LayerInfo).  The flat gds_layer and
gds_datatype fields are the ones set by protobuf.cpp addLayer; the three GDS
pair sub-messages are the ones set by proto.h setLayerInfos (drw always, pin
and label only when both halves of the entry are nonnegative).  Field defaults
are the proto3 defaults. -/
structure LayerInfo where
  name : String := ""
  description : String := ""
  purpose : Purpose := .PURPOSE_UNSPECIFIED
  gds_layer : Nat := 0
  gds_datatype : Nat := 0
  drw_gds_pair : Option GDSPair := none
  pin_gds_pair : Option GDSPair := none
  label_gds_pair : Option GDSPair := none
deriving DecidableEq

/-- Pin layer mapping record (kpex.tech.PinLayerMapping), field set per
protobuf.cpp addPinLayerMapping. -/
structure PinLayerMapping where
  description : String := ""
  pin_gds_layer : Nat := 0
  pin_gds_datatype : Nat := 0
  drw_gds_layer : Nat := 0
  drw_gds_datatype : Nat := 0
deriving DecidableEq

/-- Computed-layer kind enumeration (kpex.tech.ComputedLayerInfo.Kind), values
per the constants referenced in the PDK modules. -/
inductive ComputedLayerKind where
  | KIND_UNSPECIFIED
  | KIND_REGULAR
  | KIND_DEVICE_CAPACITOR
  | KIND_DEVICE_RESISTOR
  | KIND_PIN
  | KIND_LABEL
deriving DecidableEq

/-- Computed (derived) layer record (kpex.tech.ComputedLayerInfo), field set
per protobuf.cpp addComputedLayer: a kind, the name of the original drawn
layer, and an embedded LayerInfo sub-message. -/
structure ComputedLayerInfo where
  kind : ComputedLayerKind := .KIND_UNSPECIFIED
  original_layer_name : String := ""
  layer_info : Option LayerInfo := none
deriving DecidableEq

/-- Contact record (kpex.tech.ProcessStackInfo.Contact).  The metal_above and
scalar fields are set by protobuf.cpp setContact; layer_below additionally
appears in the proto.h declaration and the PDK call sites. -/
structure Contact where
  name : String := ""
  layer_below : String := ""
  metal_above : String := ""
  thickness : ℚ := 0
  width : ℚ := 0
  spacing : ℚ := 0
  border : ℚ := 0
deriving DecidableEq

/-- Substrate stack layer (kpex.tech.ProcessStackInfo.SubstrateLayer), fields
per protobuf.cpp addSubstrateLayer. -/
structure SubstrateLayer where
  height : ℚ := 0
  thickness : ℚ := 0
  reference : String := ""
deriving DecidableEq

/-- NWell stack layer (kpex.tech.ProcessStackInfo.NWellLayer), fields per
protobuf.cpp addNWellLayer; the optional contact is populated later through
the mutable contact_above accessor. -/
structure NWellLayer where
  height : ℚ := 0
  reference : String := ""
  contact_above : Option Contact := none
deriving DecidableEq

/-- Diffusion stack layer (kpex.tech.ProcessStackInfo.DiffusionLayer), fields
per protobuf.cpp addDiffusionLayer. -/
structure DiffusionLayer where
  height : ℚ := 0
  reference : String := ""
  contact_above : Option Contact := none
deriving DecidableEq

/-- Field-oxide stack layer (kpex.tech.ProcessStackInfo.FieldOxideLayer),
fields per protobuf.cpp addFieldOxideLayer. -/
structure FieldOxideLayer where
  dielectric_k : ℚ := 0
deriving DecidableEq

/-- Metal stack layer (kpex.tech.ProcessStackInfo.MetalLayer), fields per
protobuf.cpp addMetalLayer. -/
structure MetalLayer where
  height : ℚ := 0
  thickness : ℚ := 0
  reference_below : String := ""
  reference_above : String := ""
  contact_above : Option Contact := none
deriving DecidableEq

/-- Sidewall dielectric stack layer
(kpex.tech.ProcessStackInfo.SidewallDielectricLayer), fields per protobuf.cpp
addSidewallDielectric. -/
structure SidewallDielectricLayer where
  dielectric_k : ℚ := 0
  height_above_metal : ℚ := 0
  width_outside_sidewall : ℚ := 0
  reference : String := ""
deriving DecidableEq

/-- Simple dielectric stack layer
(kpex.tech.ProcessStackInfo.SimpleDielectricLayer), fields per protobuf.cpp
addSimpleDielectric. -/
structure SimpleDielectricLayer where
  dielectric_k : ℚ := 0
  reference : String := ""
deriving DecidableEq

/-- Conformal dielectric stack layer
(kpex.tech.ProcessStackInfo.ConformalDielectricLayer), fields per protobuf.cpp
addConformalDielectric. -/
structure ConformalDielectricLayer where
  dielectric_k : ℚ := 0
  thickness_over_metal : ℚ := 0
  thickness_where_no_metal : ℚ := 0
  thickness_sidewall : ℚ := 0
  reference : String := ""
deriving DecidableEq

/-- Stack layer type tag (kpex.tech.ProcessStackInfo.LayerType), values per
the LAYER_TYPE constants used in protobuf.cpp. -/
inductive LayerType where
  | LAYER_TYPE_UNSPECIFIED
  | LAYER_TYPE_SUBSTRATE
  | LAYER_TYPE_NWELL
  | LAYER_TYPE_DIFFUSION
  | LAYER_TYPE_FIELD_OXIDE
  | LAYER_TYPE_METAL
  | LAYER_TYPE_SIDEWALL_DIELECTRIC
  | LAYER_TYPE_SIMPLE_DIELECTRIC
  | LAYER_TYPE_CONFORMAL_DIELECTRIC
deriving DecidableEq

/-- One process-stack layer record (kpex.tech.ProcessStackInfo.LayerInfo): a
name, an enumerated type tag, and one optional sub-message per variant.  The
generated code exposes the variants as distinct sub-messages selected by the
tag, which is what the set-the-right-sub-message pattern in protobuf.cpp
populates. -/
structure StackLayerInfo where
  name : String := ""
  layer_type : LayerType := .LAYER_TYPE_UNSPECIFIED
  substrate_layer : Option SubstrateLayer := none
  nwell_layer : Option NWellLayer := none
  diffusion_layer : Option DiffusionLayer := none
  field_oxide_layer : Option FieldOxideLayer := none
  metal_layer : Option MetalLayer := none
  sidewall_dielectric_layer : Option SidewallDielectricLayer := none
  simple_dielectric_layer : Option SimpleDielectricLayer := none
  conformal_dielectric_layer : Option ConformalDielectricLayer := none
deriving DecidableEq

/-- Ordered process stack (kpex.tech.ProcessStackInfo). -/
structure ProcessStackInfo where
  layers : List StackLayerInfo := []
deriving DecidableEq

/-- Layer (sheet) resistance entry
(kpex.tech.ResistanceInfo.LayerResistance); corner_adjustment_fraction is set
only by the four-argument addLayerResistance overload and only when the
supplied fraction is nonzero, so it is modelled with explicit presence. -/
structure LayerResistance where
  layer_name : String := ""
  resistance : ℚ := 0
  corner_adjustment_fraction : Option ℚ := none
deriving DecidableEq

/-- Contact resistance entry (kpex.tech.ResistanceInfo.ContactResistance),
fields per the proto.h ContactResistanceEntry struct. -/
structure ContactResistance where
  contact_name : String := ""
  device_layer_name : String := ""
  resistance : ℚ := 0
deriving DecidableEq

/-- Via resistance entry (kpex.tech.ResistanceInfo.ViaResistance), fields per
protobuf.cpp addViaResistance. -/
structure ViaResistance where
  via_name : String := ""
  resistance : ℚ := 0
deriving DecidableEq

/-- Resistance table (kpex.tech.ResistanceInfo). -/
structure ResistanceInfo where
  layers : List LayerResistance := []
  contacts : List ContactResistance := []
  vias : List ViaResistance := []
deriving DecidableEq

/-- Substrate capacitance entry
(kpex.tech.CapacitanceInfo.SubstrateCapacitance), fields per protobuf.cpp
addSubstrateCap. -/
structure SubstrateCapacitance where
  layer_name : String := ""
  area_capacitance : ℚ := 0
  perimeter_capacitance : ℚ := 0
deriving DecidableEq

/-- Overlap capacitance entry (kpex.tech.CapacitanceInfo.OverlapCapacitance),
fields per protobuf.cpp addOverlapCap. -/
structure OverlapCapacitance where
  top_layer_name : String := ""
  bottom_layer_name : String := ""
  capacitance : ℚ := 0
deriving DecidableEq

/-- Sidewall capacitance entry
(kpex.tech.CapacitanceInfo.SidewallCapacitance), fields per protobuf.cpp
addSidewallCap. -/
structure SidewallCapacitance where
  layer_name : String := ""
  capacitance : ℚ := 0
  offset : ℚ := 0
deriving DecidableEq

/-- Side-overlap (fringe) capacitance entry
(kpex.tech.CapacitanceInfo.SideOverlapCapacitance), fields per protobuf.cpp
addSidewallOverlapCap. -/
structure SideOverlapCapacitance where
  in_layer_name : String := ""
  out_layer_name : String := ""
  capacitance : ℚ := 0
deriving DecidableEq

/-- Capacitance table (kpex.tech.CapacitanceInfo). -/
structure CapacitanceInfo where
  substrates : List SubstrateCapacitance := []
  overlaps : List OverlapCapacitance := []
  sidewalls : List SidewallCapacitance := []
  sideoverlaps : List SideOverlapCapacitance := []
deriving DecidableEq

/-- Parasitics aggregate (kpex.tech.ProcessParasiticsInfo): the side_halo
scalar plus the two tables, per pdk/sky130A.cpp buildProcessParasiticsInfo. -/
structure ProcessParasiticsInfo where
  side_halo : ℚ := 0
  resistance : Option ResistanceInfo := none
  capacitance : Option CapacitanceInfo := none
deriving DecidableEq

/-- Root document (kpex.tech.Technology): name, ordered layer lists, optional
process stack and optional parasitics aggregate, per the buildTech functions
of the PDK modules and protobuf.cpp. -/
structure Technology where
  name : String := ""
  layers : List LayerInfo := []
  pin_layer_mappings : List PinLayerMapping := []
  lvs_computed_layers : List ComputedLayerInfo := []
  process_stack : Option ProcessStackInfo := none
  process_parasitics : Option ProcessParasiticsInfo := none
deriving DecidableEq

/-!
Construction API, translated from src/cxx/gen_tech_pb/protobuf.cpp.  The C++
functions mutate the aggregate through a pointer; here each one takes the
aggregate and returns the updated aggregate.  Each add function appends a
freshly default-initialized record (protobuf add_layers and friends) and then
sets exactly the fields the C++ body sets.
-/

/-- Translation of protobuf.cpp addLayer (lines 118-129): append one LayerInfo
and set name, description, gds_layer and gds_datatype on it. -/
def addLayer (tech : Technology) (name : String)
    (gds_layer gds_datatype : Nat) (description : String) : Technology :=
  { tech with
    layers := tech.layers ++
      [{ name := name, description := description,
         gds_layer := gds_layer, gds_datatype := gds_datatype }] }

/-- Translation of protobuf.cpp addPinLayerMapping (lines 131-144). -/
def addPinLayerMapping (tech : Technology) (description : String)
    (pin_gds_layer pin_gds_datatype drw_gds_layer drw_gds_datatype : Nat) :
    Technology :=
  { tech with
    pin_layer_mappings := tech.pin_layer_mappings ++
      [{ description := description,
         pin_gds_layer := pin_gds_layer, pin_gds_datatype := pin_gds_datatype,
         drw_gds_layer := drw_gds_layer,
         drw_gds_datatype := drw_gds_datatype }] }

/-- Translation of protobuf.cpp addComputedLayer (lines 146-162): append one
ComputedLayerInfo, set kind and original_layer_name, and populate the embedded
layer_info sub-message. -/
def addComputedLayer (tech : Technology) (kind : ComputedLayerKind)
    (name : String) (gds_layer gds_datatype : Nat)
    (original_layer_name description : String) : Technology :=
  { tech with
    lvs_computed_layers := tech.lvs_computed_layers ++
      [{ kind := kind, original_layer_name := original_layer_name,
         layer_info := some
           { name := name, description := description,
             gds_layer := gds_layer, gds_datatype := gds_datatype } }] }

/-- Translation of protobuf.cpp addSubstrateLayer (lines 166-179). -/
def addSubstrateLayer (psi : ProcessStackInfo) (layer_name : String)
    (height thickness : ℚ) (reference : String) : ProcessStackInfo :=
  { psi with
    layers := psi.layers ++
      [{ name := layer_name, layer_type := .LAYER_TYPE_SUBSTRATE,
         substrate_layer := some
           { height := height, thickness := thickness,
             reference := reference } }] }

/-- Translation of protobuf.cpp addNWellLayer (lines 181-194). -/
def addNWellLayer (psi : ProcessStackInfo) (layer_name : String)
    (height : ℚ) (reference : String) : ProcessStackInfo :=
  { psi with
    layers := psi.layers ++
      [{ name := layer_name, layer_type := .LAYER_TYPE_NWELL,
         nwell_layer := some { height := height, reference := reference } }] }

/-- Translation of protobuf.cpp setContact (lines 196-210): populate a Contact
record in place (name, metal_above and the four scalar attributes). -/
def setContact (co : Contact) (name layer_above : String)
    (thickness width spacing border : ℚ) : Contact :=
  { co with
    name := name, metal_above := layer_above, thickness := thickness,
    width := width, spacing := spacing, border := border }

/-- Translation of protobuf.cpp addDiffusionLayer (lines 212-225). -/
def addDiffusionLayer (psi : ProcessStackInfo) (name : String)
    (height : ℚ) (reference : String) : ProcessStackInfo :=
  { psi with
    layers := psi.layers ++
      [{ name := name, layer_type := .LAYER_TYPE_DIFFUSION,
         diffusion_layer := some
           { height := height, reference := reference } }] }

/-- Translation of protobuf.cpp addFieldOxideLayer (lines 227-236). -/
def addFieldOxideLayer (psi : ProcessStackInfo) (name : String)
    (dielectric_k : ℚ) : ProcessStackInfo :=
  { psi with
    layers := psi.layers ++
      [{ name := name, layer_type := .LAYER_TYPE_FIELD_OXIDE,
         field_oxide_layer := some { dielectric_k := dielectric_k } }] }

/-- Translation of protobuf.cpp addMetalLayer (lines 238-255). -/
def addMetalLayer (psi : ProcessStackInfo) (layer_name : String)
    (height thickness : ℚ) (reference_below reference_above : String) :
    ProcessStackInfo :=
  { psi with
    layers := psi.layers ++
      [{ name := layer_name, layer_type := .LAYER_TYPE_METAL,
         metal_layer := some
           { height := height, thickness := thickness,
             reference_below := reference_below,
             reference_above := reference_above } }] }

/-- Translation of protobuf.cpp addSidewallDielectric (lines 257-272). -/
def addSidewallDielectric (psi : ProcessStackInfo) (name : String)
    (dielectric_k height_above_metal width_outside_sidewall : ℚ)
    (reference : String) : ProcessStackInfo :=
  { psi with
    layers := psi.layers ++
      [{ name := name, layer_type := .LAYER_TYPE_SIDEWALL_DIELECTRIC,
         sidewall_dielectric_layer := some
           { dielectric_k := dielectric_k,
             height_above_metal := height_above_metal,
             width_outside_sidewall := width_outside_sidewall,
             reference := reference } }] }

/-- Translation of protobuf.cpp addSimpleDielectric (lines 274-285). -/
def addSimpleDielectric (psi : ProcessStackInfo) (name : String)
    (dielectric_k : ℚ) (reference : String) : ProcessStackInfo :=
  { psi with
    layers := psi.layers ++
      [{ name := name, layer_type := .LAYER_TYPE_SIMPLE_DIELECTRIC,
         simple_dielectric_layer := some
           { dielectric_k := dielectric_k, reference := reference } }] }

/-- Translation of protobuf.cpp addConformalDielectric (lines 287-304), with
the thickness_where_mo_metal parameter spelling of the source kept in mind:
it populates the thickness_where_no_metal field. -/
def addConformalDielectric (psi : ProcessStackInfo) (name : String)
    (dielectric_k thickness_over_metal thickness_where_mo_metal
     thickness_sidewall : ℚ) (reference : String) : ProcessStackInfo :=
  { psi with
    layers := psi.layers ++
      [{ name := name, layer_type := .LAYER_TYPE_CONFORMAL_DIELECTRIC,
         conformal_dielectric_layer := some
           { dielectric_k := dielectric_k,
             thickness_over_metal := thickness_over_metal,
             thickness_where_no_metal := thickness_where_mo_metal,
             thickness_sidewall := thickness_sidewall,
             reference := reference } }] }

/-- Translation of the three-argument protobuf.cpp addLayerResistance overload
(lines 309-316): append one LayerResistance and set layer_name and resistance;
the corner adjustment field is never touched. -/
def addLayerResistance (ri : ResistanceInfo) (layer_name : String)
    (resistance : ℚ) : ResistanceInfo :=
  { ri with
    layers := ri.layers ++
      [{ layer_name := layer_name, resistance := resistance }] }

/-- Translation of the four-argument protobuf.cpp addLayerResistance overload
(lines 318-329): like the three-argument one, but additionally set
corner_adjustment_fraction when (and only when) the supplied fraction is
nonzero. -/
def addLayerResistanceCorner (ri : ResistanceInfo) (layer_name : String)
    (resistance corner_adjustment_fraction : ℚ) : ResistanceInfo :=
  { ri with
    layers := ri.layers ++
      [{ layer_name := layer_name, resistance := resistance,
         corner_adjustment_fraction :=
           if corner_adjustment_fraction ≠ 0 then
             some corner_adjustment_fraction
           else none }] }

/-- Translation of protobuf.cpp addViaResistance (lines 331-338). -/
def addViaResistance (ri : ResistanceInfo) (via_name : String)
    (resistance : ℚ) : ResistanceInfo :=
  { ri with
    vias := ri.vias ++
      [{ via_name := via_name, resistance := resistance }] }

/-- Translation of protobuf.cpp addSubstrateCap (lines 340-349). -/
def addSubstrateCap (ci : CapacitanceInfo) (layer_name : String)
    (area_cap perimeter_cap : ℚ) : CapacitanceInfo :=
  { ci with
    substrates := ci.substrates ++
      [{ layer_name := layer_name, area_capacitance := area_cap,
         perimeter_capacitance := perimeter_cap }] }

/-- Translation of protobuf.cpp addOverlapCap (lines 351-360). -/
def addOverlapCap (ci : CapacitanceInfo) (top_layer bottom_layer : String)
    (cap : ℚ) : CapacitanceInfo :=
  { ci with
    overlaps := ci.overlaps ++
      [{ top_layer_name := top_layer, bottom_layer_name := bottom_layer,
         capacitance := cap }] }

/-- Translation of protobuf.cpp addSidewallCap (lines 362-371). -/
def addSidewallCap (ci : CapacitanceInfo) (layer_name : String)
    (cap offset : ℚ) : CapacitanceInfo :=
  { ci with
    sidewalls := ci.sidewalls ++
      [{ layer_name := layer_name, capacitance := cap, offset := offset }] }

/-- Translation of protobuf.cpp addSidewallOverlapCap (lines 373-382). -/
def addSidewallOverlapCap (ci : CapacitanceInfo) (in_layer out_layer : String)
    (cap : ℚ) : CapacitanceInfo :=
  { ci with
    sideoverlaps := ci.sideoverlaps ++
      [{ in_layer_name := in_layer, out_layer_name := out_layer,
         capacitance := cap }] }

/-!
Bulk construction API, translated from src/cxx/gen_tech_pb/proto.h.  The
template functions there take a C array of entry structs and initialize the
corresponding repeated field of the builder to exactly that many records.
-/

/-- Translation of the proto.h LayerInfoEntry struct (lines 49-58): the pin
and label halves are signed and carry -1 when the pair is not available. -/
structure LayerInfoEntry where
  name : String
  drwGDSLayer : Nat
  drwGDSDataType : Nat
  pinGDSLayer : ℤ
  pinGDSDataType : ℤ
  labelGDSLayer : ℤ
  labelGDSDataType : ℤ
  description : String
deriving DecidableEq

/-- Record built from one LayerInfoEntry by the loop body of proto.h
setLayerInfos (lines 75-99): name, description and the drawn GDS pair are set
unconditionally; the pin pair is initialized only when both of its halves are
nonnegative, and likewise the label pair. -/
def layerInfoOfEntry (ei : LayerInfoEntry) : LayerInfo :=
  { name := ei.name, description := ei.description,
    drw_gds_pair := some
      { layer := ei.drwGDSLayer, datatype := ei.drwGDSDataType },
    pin_gds_pair :=
      if 0 ≤ ei.pinGDSLayer ∧ 0 ≤ ei.pinGDSDataType then
        some { layer := ei.pinGDSLayer.toNat,
               datatype := ei.pinGDSDataType.toNat }
      else none,
    label_gds_pair :=
      if 0 ≤ ei.labelGDSLayer ∧ 0 ≤ ei.labelGDSDataType then
        some { layer := ei.labelGDSLayer.toNat,
               datatype := ei.labelGDSDataType.toNat }
      else none }

/-- Translation of proto.h setLayerInfos (lines 69-100): initLayers(N)
replaces the repeated layers field with N fresh records, and the loop fills
record i from entry i. -/
def setLayerInfos (tech : Technology) (entries : List LayerInfoEntry) :
    Technology :=
  { tech with layers := entries.map layerInfoOfEntry }

/-!
Per-record stack-layer population functions, translated from
src/cxx/gen_tech_pb/proto.cpp.  Each one receives a stack-layer builder, sets
its name and type tag, and initializes the union variant named by the tag;
tech.capnp (not part of src/) exposes the variants as the tagged union the
design notes describe, so initializing one variant leaves every other variant
unset regardless of the prior state of the record.  The capnp schema names the
vertical position field of the NWell, Diffusion and Metal variants z; it is
the height field of the protobuf schema and is modelled under that name.
-/

/-- Translation of proto.cpp setSubstrateLayer (lines 90-102). -/
def setSubstrateLayer (_li : StackLayerInfo) (layer_name : String)
    (height thickness : ℚ) (reference : String) : StackLayerInfo :=
  { name := layer_name, layer_type := .LAYER_TYPE_SUBSTRATE,
    substrate_layer := some
      { height := height, thickness := thickness, reference := reference } }

/-- Translation of proto.cpp setNWellLayer (lines 104-114). -/
def setNWellLayer (_li : StackLayerInfo) (layer_name : String) (z : ℚ)
    (reference : String) : StackLayerInfo :=
  { name := layer_name, layer_type := .LAYER_TYPE_NWELL,
    nwell_layer := some { height := z, reference := reference } }

/-- Translation of proto.cpp setDiffusionLayer (lines 134-144). -/
def setDiffusionLayer (_li : StackLayerInfo) (layer_name : String) (z : ℚ)
    (reference : String) : StackLayerInfo :=
  { name := layer_name, layer_type := .LAYER_TYPE_DIFFUSION,
    diffusion_layer := some { height := z, reference := reference } }

/-- Translation of proto.cpp setFieldOxideLayer (lines 146-154). -/
def setFieldOxideLayer (_li : StackLayerInfo) (name : String)
    (dielectric_k : ℚ) : StackLayerInfo :=
  { name := name, layer_type := .LAYER_TYPE_FIELD_OXIDE,
    field_oxide_layer := some { dielectric_k := dielectric_k } }

/-- Translation of proto.cpp setMetalLayer (lines 156-166). -/
def setMetalLayer (_li : StackLayerInfo) (layer_name : String)
    (z thickness : ℚ) : StackLayerInfo :=
  { name := layer_name, layer_type := .LAYER_TYPE_METAL,
    metal_layer := some { height := z, thickness := thickness } }

/-- Translation of proto.cpp setSidewallDielectric (lines 168-182). -/
def setSidewallDielectric (_li : StackLayerInfo) (name : String)
    (dielectric_k height_above_metal width_outside_sidewall : ℚ)
    (reference : String) : StackLayerInfo :=
  { name := name, layer_type := .LAYER_TYPE_SIDEWALL_DIELECTRIC,
    sidewall_dielectric_layer := some
      { dielectric_k := dielectric_k,
        height_above_metal := height_above_metal,
        width_outside_sidewall := width_outside_sidewall,
        reference := reference } }

/-- Translation of proto.cpp setSimpleDielectric (lines 184-194). -/
def setSimpleDielectric (_li : StackLayerInfo) (name : String)
    (dielectric_k : ℚ) (reference : String) : StackLayerInfo :=
  { name := name, layer_type := .LAYER_TYPE_SIMPLE_DIELECTRIC,
    simple_dielectric_layer := some
      { dielectric_k := dielectric_k, reference := reference } }

/-- Translation of proto.cpp setConformalDielectric (lines 196-212). -/
def setConformalDielectric (_li : StackLayerInfo) (name : String)
    (dielectric_k thickness_over_metal thickness_where_mo_metal
     thickness_sidewall : ℚ) (reference : String) : StackLayerInfo :=
  { name := name, layer_type := .LAYER_TYPE_CONFORMAL_DIELECTRIC,
    conformal_dielectric_layer := some
      { dielectric_k := dielectric_k,
        thickness_over_metal := thickness_over_metal,
        thickness_where_no_metal := thickness_where_mo_metal,
        thickness_sidewall := thickness_sidewall,
        reference := reference } }

/-!
Tagged-union consistency.  The eight stack-layer construction calls are
summarized by one argument type so that a single statement can quantify over
every call of the family; applyAddStackOp dispatches to the protobuf.cpp add
functions and applySetStackOp to the proto.cpp set functions.
-/

/-- Argument package of one stack-layer construction call: one constructor per
protobuf.cpp add function (equivalently, per proto.cpp set function). -/
inductive StackOp where
  | substrate (layer_name : String) (height thickness : ℚ) (reference : String)
  | nwell (layer_name : String) (height : ℚ) (reference : String)
  | diffusion (name : String) (height : ℚ) (reference : String)
  | fieldOxide (name : String) (dielectric_k : ℚ)
  | metal (layer_name : String) (height thickness : ℚ)
      (reference_below reference_above : String)
  | sidewallDielectric (name : String)
      (dielectric_k height_above_metal width_outside_sidewall : ℚ)
      (reference : String)
  | simpleDielectric (name : String) (dielectric_k : ℚ) (reference : String)
  | conformalDielectric (name : String)
      (dielectric_k thickness_over_metal thickness_where_mo_metal
       thickness_sidewall : ℚ) (reference : String)
deriving DecidableEq

/-- Dispatch one stack-layer append call to the protobuf.cpp function it
packages. -/
def applyAddStackOp (psi : ProcessStackInfo) : StackOp → ProcessStackInfo
  | .substrate n h t r => addSubstrateLayer psi n h t r
  | .nwell n h r => addNWellLayer psi n h r
  | .diffusion n h r => addDiffusionLayer psi n h r
  | .fieldOxide n k => addFieldOxideLayer psi n k
  | .metal n h t rb ra => addMetalLayer psi n h t rb ra
  | .sidewallDielectric n k ham wos r => addSidewallDielectric psi n k ham wos r
  | .simpleDielectric n k r => addSimpleDielectric psi n k r
  | .conformalDielectric n k tom twnm ts r =>
      addConformalDielectric psi n k tom twnm ts r

/-- Dispatch one stack-layer population call to the proto.cpp function it
packages. -/
def applySetStackOp (li : StackLayerInfo) : StackOp → StackLayerInfo
  | .substrate n h t r => setSubstrateLayer li n h t r
  | .nwell n h r => setNWellLayer li n h r
  | .diffusion n h r => setDiffusionLayer li n h r
  | .fieldOxide n k => setFieldOxideLayer li n k
  | .metal n h t _rb _ra => setMetalLayer li n h t
  | .sidewallDielectric n k ham wos r => setSidewallDielectric li n k ham wos r
  | .simpleDielectric n k r => setSimpleDielectric li n k r
  | .conformalDielectric n k tom twnm ts r =>
      setConformalDielectric li n k tom twnm ts r

/-- Type tags of the variant sub-messages that are populated on a stack-layer
record, in declaration order. -/
def activeVariants (li : StackLayerInfo) : List LayerType :=
  (if li.substrate_layer.isSome then [.LAYER_TYPE_SUBSTRATE] else []) ++
  (if li.nwell_layer.isSome then [.LAYER_TYPE_NWELL] else []) ++
  (if li.diffusion_layer.isSome then [.LAYER_TYPE_DIFFUSION] else []) ++
  (if li.field_oxide_layer.isSome then [.LAYER_TYPE_FIELD_OXIDE] else []) ++
  (if li.metal_layer.isSome then [.LAYER_TYPE_METAL] else []) ++
  (if li.sidewall_dielectric_layer.isSome then
    [.LAYER_TYPE_SIDEWALL_DIELECTRIC] else []) ++
  (if li.simple_dielectric_layer.isSome then
    [.LAYER_TYPE_SIMPLE_DIELECTRIC] else []) ++
  (if li.conformal_dielectric_layer.isSome then
    [.LAYER_TYPE_CONFORMAL_DIELECTRIC] else [])

/-- A stack-layer record is well tagged when exactly one variant sub-message
is populated and its tag is the records layer_type. -/
def WellTagged (li : StackLayerInfo) : Prop :=
  activeVariants li = [li.layer_type]

/-!
Codec layer.  The write/read/convert functions of protobuf.cpp delegate the
actual three encodings to the schema runtime (JsonPrintOptions and
MessageToJsonString, SerializeToOstream and ParseFromIstream,
TextFormat Print and Parse), which is not part of src/.

Modelled from the spec: the JSON encoding is a structured value tree with the
proto field names preserved verbatim and keys in declaration order; a decoder
reads a field by name, treats an absent field as the proto3 default of the
field (absent optional sub-messages stay absent), and fails on a structurally
invalid value.  Character-level lexing of the tree is below the modelled
layer.
-/

/-- Structured JSON value. -/
inductive Json where
  | str (s : String)
  | num (q : ℚ)
  | arr (elems : List Json)
  | obj (fields : List (String × Json))

/-- Lookup of a field by key in a JSON object, first occurrence wins. -/
def lookupField : List (String × Json) → String → Option Json
  | [], _ => none
  | (k, v) :: rest, key => if k = key then some v else lookupField rest key

/-- Unwrap an object value. -/
def asObj : Json → Except String (List (String × Json))
  | .obj kvs => .ok kvs
  | _ => .error "expected object"

/-- Decode a possibly-absent string field value; absence is the empty
string. -/
def decStrVal : Option Json → Except String String
  | none => .ok ""
  | some (.str s) => .ok s
  | some _ => .error "expected string"

/-- Decode a possibly-absent rational-number field value; absence is zero. -/
def decNumVal : Option Json → Except String ℚ
  | none => .ok 0
  | some (.num q) => .ok q
  | some _ => .error "expected number"

/-- Decode a possibly-absent nonnegative-integer field value; absence is
zero. -/
def decNatVal : Option Json → Except String Nat
  | none => .ok 0
  | some (.num q) =>
      if q.den = 1 ∧ 0 ≤ q.num then .ok q.num.toNat
      else .error "expected nonnegative integer"
  | some _ => .error "expected number"

/-- Decode a number value that must be present. -/
def decNumJ : Json → Except String ℚ
  | .num q => .ok q
  | _ => .error "expected number"

/-- Decode a possibly-absent optional sub-message value through the given
element decoder; an absent field stays absent. -/
def decOptVal (dec : β → Except String α) : Option β → Except String (Option α)
  | none => .ok none
  | some j => (dec j).map some

/-- Decode a list of values elementwise, failing on the first element the
element decoder rejects. -/
def mapDec (dec : β → Except String α) : List β → Except String (List α)
  | [] => .ok []
  | j :: rest => do
      let x ← dec j
      let xs ← mapDec dec rest
      pure (x :: xs)

/-- Decode a possibly-absent repeated field value through the given element
decoder; an absent field is the empty list. -/
def decRepVal (dec : Json → Except String α) : Option Json → Except String (List α)
  | none => .ok []
  | some (.arr xs) => mapDec dec xs
  | some _ => .error "expected array"

/-- Decode a possibly-absent enum field value given the enum name table;
absence is the zero value of the enum. -/
def decEnumVal (ofName : String → Option α) (dflt : α) :
    Option Json → Except String α
  | none => .ok dflt
  | some (.str s) =>
      match ofName s with
      | some v => .ok v
      | none => .error "unknown enum value"
  | some _ => .error "expected enum name"

/-- Read a string field; an absent field is the empty string. -/
def getStr (kvs : List (String × Json)) (k : String) : Except String String :=
  decStrVal (lookupField kvs k)

/-- Read a rational-number field; an absent field is zero. -/
def getNum (kvs : List (String × Json)) (k : String) : Except String ℚ :=
  decNumVal (lookupField kvs k)

/-- Read a nonnegative-integer field; an absent field is zero. -/
def getNat (kvs : List (String × Json)) (k : String) : Except String Nat :=
  decNatVal (lookupField kvs k)

/-- Read an optional sub-message field through the given element decoder. -/
def getOptMsg (kvs : List (String × Json)) (k : String)
    (dec : Json → Except String α) : Except String (Option α) :=
  decOptVal dec (lookupField kvs k)

/-- Read an optional number field, keeping explicit presence. -/
def getOptNum (kvs : List (String × Json)) (k : String) :
    Except String (Option ℚ) :=
  decOptVal decNumJ (lookupField kvs k)

/-- Read a repeated field through the given element decoder; an absent field
is the empty list. -/
def getRep (kvs : List (String × Json)) (k : String)
    (dec : Json → Except String α) : Except String (List α) :=
  decRepVal dec (lookupField kvs k)

/-- Read an enum field given its name table; an absent field is the zero
value of the enum. -/
def getEnum (kvs : List (String × Json)) (k : String)
    (ofName : String → Option α) (dflt : α) : Except String α :=
  decEnumVal ofName dflt (lookupField kvs k)

/-- Emit an optional field: absent values produce no key at all. -/
def optField (k : String) : Option Json → List (String × Json)
  | none => []
  | some j => [(k, j)]

/-- Proto name of a Purpose value. -/
def Purpose.protoName : Purpose → String
  | .PURPOSE_UNSPECIFIED => "PURPOSE_UNSPECIFIED"
  | .PURPOSE_DNWELL => "PURPOSE_DNWELL"
  | .PURPOSE_NWELL => "PURPOSE_NWELL"
  | .PURPOSE_PWELL => "PURPOSE_PWELL"
  | .PURPOSE_DIFF => "PURPOSE_DIFF"
  | .PURPOSE_NTAP_OR_PTAP => "PURPOSE_NTAP_OR_PTAP"
  | .PURPOSE_NTAP => "PURPOSE_NTAP"
  | .PURPOSE_PTAP => "PURPOSE_PTAP"
  | .PURPOSE_P_IMPLANT => "PURPOSE_P_IMPLANT"
  | .PURPOSE_N_IMPLANT => "PURPOSE_N_IMPLANT"
  | .PURPOSE_CONTACT => "PURPOSE_CONTACT"
  | .PURPOSE_METAL => "PURPOSE_METAL"
  | .PURPOSE_VIA => "PURPOSE_VIA"
  | .PURPOSE_MIM_CAP => "PURPOSE_MIM_CAP"

/-- Purpose value of a proto name. -/
def purposeOfName (s : String) : Option Purpose :=
  if s = "PURPOSE_UNSPECIFIED" then some .PURPOSE_UNSPECIFIED
  else if s = "PURPOSE_DNWELL" then some .PURPOSE_DNWELL
  else if s = "PURPOSE_NWELL" then some .PURPOSE_NWELL
  else if s = "PURPOSE_PWELL" then some .PURPOSE_PWELL
  else if s = "PURPOSE_DIFF" then some .PURPOSE_DIFF
  else if s = "PURPOSE_NTAP_OR_PTAP" then some .PURPOSE_NTAP_OR_PTAP
  else if s = "PURPOSE_NTAP" then some .PURPOSE_NTAP
  else if s = "PURPOSE_PTAP" then some .PURPOSE_PTAP
  else if s = "PURPOSE_P_IMPLANT" then some .PURPOSE_P_IMPLANT
  else if s = "PURPOSE_N_IMPLANT" then some .PURPOSE_N_IMPLANT
  else if s = "PURPOSE_CONTACT" then some .PURPOSE_CONTACT
  else if s = "PURPOSE_METAL" then some .PURPOSE_METAL
  else if s = "PURPOSE_VIA" then some .PURPOSE_VIA
  else if s = "PURPOSE_MIM_CAP" then some .PURPOSE_MIM_CAP
  else none

/-- Proto name of a ComputedLayerKind value. -/
def ComputedLayerKind.protoName : ComputedLayerKind → String
  | .KIND_UNSPECIFIED => "KIND_UNSPECIFIED"
  | .KIND_REGULAR => "KIND_REGULAR"
  | .KIND_DEVICE_CAPACITOR => "KIND_DEVICE_CAPACITOR"
  | .KIND_DEVICE_RESISTOR => "KIND_DEVICE_RESISTOR"
  | .KIND_PIN => "KIND_PIN"
  | .KIND_LABEL => "KIND_LABEL"

/-- ComputedLayerKind value of a proto name. -/
def kindOfName (s : String) : Option ComputedLayerKind :=
  if s = "KIND_UNSPECIFIED" then some .KIND_UNSPECIFIED
  else if s = "KIND_REGULAR" then some .KIND_REGULAR
  else if s = "KIND_DEVICE_CAPACITOR" then some .KIND_DEVICE_CAPACITOR
  else if s = "KIND_DEVICE_RESISTOR" then some .KIND_DEVICE_RESISTOR
  else if s = "KIND_PIN" then some .KIND_PIN
  else if s = "KIND_LABEL" then some .KIND_LABEL
  else none

/-- Proto name of a LayerType value. -/
def LayerType.protoName : LayerType → String
  | .LAYER_TYPE_UNSPECIFIED => "LAYER_TYPE_UNSPECIFIED"
  | .LAYER_TYPE_SUBSTRATE => "LAYER_TYPE_SUBSTRATE"
  | .LAYER_TYPE_NWELL => "LAYER_TYPE_NWELL"
  | .LAYER_TYPE_DIFFUSION => "LAYER_TYPE_DIFFUSION"
  | .LAYER_TYPE_FIELD_OXIDE => "LAYER_TYPE_FIELD_OXIDE"
  | .LAYER_TYPE_METAL => "LAYER_TYPE_METAL"
  | .LAYER_TYPE_SIDEWALL_DIELECTRIC => "LAYER_TYPE_SIDEWALL_DIELECTRIC"
  | .LAYER_TYPE_SIMPLE_DIELECTRIC => "LAYER_TYPE_SIMPLE_DIELECTRIC"
  | .LAYER_TYPE_CONFORMAL_DIELECTRIC => "LAYER_TYPE_CONFORMAL_DIELECTRIC"

/-- LayerType value of a proto name. -/
def layerTypeOfName (s : String) : Option LayerType :=
  if s = "LAYER_TYPE_UNSPECIFIED" then some .LAYER_TYPE_UNSPECIFIED
  else if s = "LAYER_TYPE_SUBSTRATE" then some .LAYER_TYPE_SUBSTRATE
  else if s = "LAYER_TYPE_NWELL" then some .LAYER_TYPE_NWELL
  else if s = "LAYER_TYPE_DIFFUSION" then some .LAYER_TYPE_DIFFUSION
  else if s = "LAYER_TYPE_FIELD_OXIDE" then some .LAYER_TYPE_FIELD_OXIDE
  else if s = "LAYER_TYPE_METAL" then some .LAYER_TYPE_METAL
  else if s = "LAYER_TYPE_SIDEWALL_DIELECTRIC" then
    some .LAYER_TYPE_SIDEWALL_DIELECTRIC
  else if s = "LAYER_TYPE_SIMPLE_DIELECTRIC" then
    some .LAYER_TYPE_SIMPLE_DIELECTRIC
  else if s = "LAYER_TYPE_CONFORMAL_DIELECTRIC" then
    some .LAYER_TYPE_CONFORMAL_DIELECTRIC
  else none

/-- JSON encoding of a GDSPair. -/
def jsonOfGDSPair (p : GDSPair) : Json :=
  .obj [("layer", .num p.layer), ("datatype", .num p.datatype)]

/-- JSON decoding of a GDSPair. -/
def gdsPairOfJson (j : Json) : Except String GDSPair := do
  let kvs ← asObj j
  let l ← getNat kvs "layer"
  let d ← getNat kvs "datatype"
  pure { layer := l, datatype := d }

/-- JSON encoding of a LayerInfo, keys in declaration order, absent optional
pairs omitted. -/
def jsonOfLayerInfo (li : LayerInfo) : Json :=
  .obj ([("name", .str li.name), ("description", .str li.description),
         ("purpose", .str li.purpose.protoName),
         ("gds_layer", .num li.gds_layer),
         ("gds_datatype", .num li.gds_datatype)] ++
        optField "drw_gds_pair" (li.drw_gds_pair.map jsonOfGDSPair) ++
        optField "pin_gds_pair" (li.pin_gds_pair.map jsonOfGDSPair) ++
        optField "label_gds_pair" (li.label_gds_pair.map jsonOfGDSPair))

/-- JSON decoding of a LayerInfo. -/
def layerInfoOfJson (j : Json) : Except String LayerInfo := do
  let kvs ← asObj j
  let name ← getStr kvs "name"
  let description ← getStr kvs "description"
  let purpose ← getEnum kvs "purpose" purposeOfName .PURPOSE_UNSPECIFIED
  let gds_layer ← getNat kvs "gds_layer"
  let gds_datatype ← getNat kvs "gds_datatype"
  let drw ← getOptMsg kvs "drw_gds_pair" gdsPairOfJson
  let pin ← getOptMsg kvs "pin_gds_pair" gdsPairOfJson
  let label ← getOptMsg kvs "label_gds_pair" gdsPairOfJson
  pure { name := name, description := description, purpose := purpose,
         gds_layer := gds_layer, gds_datatype := gds_datatype,
         drw_gds_pair := drw, pin_gds_pair := pin, label_gds_pair := label }

/-- JSON encoding of a PinLayerMapping. -/
def jsonOfPinLayerMapping (m : PinLayerMapping) : Json :=
  .obj [("description", .str m.description),
        ("pin_gds_layer", .num m.pin_gds_layer),
        ("pin_gds_datatype", .num m.pin_gds_datatype),
        ("drw_gds_layer", .num m.drw_gds_layer),
        ("drw_gds_datatype", .num m.drw_gds_datatype)]

/-- JSON decoding of a PinLayerMapping. -/
def pinLayerMappingOfJson (j : Json) : Except String PinLayerMapping := do
  let kvs ← asObj j
  let description ← getStr kvs "description"
  let pl ← getNat kvs "pin_gds_layer"
  let pd ← getNat kvs "pin_gds_datatype"
  let dl ← getNat kvs "drw_gds_layer"
  let dd ← getNat kvs "drw_gds_datatype"
  pure { description := description, pin_gds_layer := pl,
         pin_gds_datatype := pd, drw_gds_layer := dl, drw_gds_datatype := dd }

/-- JSON encoding of a ComputedLayerInfo. -/
def jsonOfComputedLayerInfo (cl : ComputedLayerInfo) : Json :=
  .obj ([("kind", .str cl.kind.protoName),
         ("original_layer_name", .str cl.original_layer_name)] ++
        optField "layer_info" (cl.layer_info.map jsonOfLayerInfo))

/-- JSON decoding of a ComputedLayerInfo. -/
def computedLayerInfoOfJson (j : Json) : Except String ComputedLayerInfo := do
  let kvs ← asObj j
  let kind ← getEnum kvs "kind" kindOfName .KIND_UNSPECIFIED
  let oln ← getStr kvs "original_layer_name"
  let li ← getOptMsg kvs "layer_info" layerInfoOfJson
  pure { kind := kind, original_layer_name := oln, layer_info := li }

/-- JSON encoding of a Contact. -/
def jsonOfContact (co : Contact) : Json :=
  .obj [("name", .str co.name), ("layer_below", .str co.layer_below),
        ("metal_above", .str co.metal_above), ("thickness", .num co.thickness),
        ("width", .num co.width), ("spacing", .num co.spacing),
        ("border", .num co.border)]

/-- JSON decoding of a Contact. -/
def contactOfJson (j : Json) : Except String Contact := do
  let kvs ← asObj j
  let name ← getStr kvs "name"
  let lb ← getStr kvs "layer_below"
  let ma ← getStr kvs "metal_above"
  let th ← getNum kvs "thickness"
  let w ← getNum kvs "width"
  let sp ← getNum kvs "spacing"
  let b ← getNum kvs "border"
  pure { name := name, layer_below := lb, metal_above := ma, thickness := th,
         width := w, spacing := sp, border := b }

/-- JSON encoding of a SubstrateLayer. -/
def jsonOfSubstrateLayer (sl : SubstrateLayer) : Json :=
  .obj [("height", .num sl.height), ("thickness", .num sl.thickness),
        ("reference", .str sl.reference)]

/-- JSON decoding of a SubstrateLayer. -/
def substrateLayerOfJson (j : Json) : Except String SubstrateLayer := do
  let kvs ← asObj j
  let h ← getNum kvs "height"
  let th ← getNum kvs "thickness"
  let r ← getStr kvs "reference"
  pure { height := h, thickness := th, reference := r }

/-- JSON encoding of an NWellLayer. -/
def jsonOfNWellLayer (wl : NWellLayer) : Json :=
  .obj ([("height", .num wl.height), ("reference", .str wl.reference)] ++
        optField "contact_above" (wl.contact_above.map jsonOfContact))

/-- JSON decoding of an NWellLayer. -/
def nwellLayerOfJson (j : Json) : Except String NWellLayer := do
  let kvs ← asObj j
  let h ← getNum kvs "height"
  let r ← getStr kvs "reference"
  let co ← getOptMsg kvs "contact_above" contactOfJson
  pure { height := h, reference := r, contact_above := co }

/-- JSON encoding of a DiffusionLayer. -/
def jsonOfDiffusionLayer (dl : DiffusionLayer) : Json :=
  .obj ([("height", .num dl.height), ("reference", .str dl.reference)] ++
        optField "contact_above" (dl.contact_above.map jsonOfContact))

/-- JSON decoding of a DiffusionLayer. -/
def diffusionLayerOfJson (j : Json) : Except String DiffusionLayer := do
  let kvs ← asObj j
  let h ← getNum kvs "height"
  let r ← getStr kvs "reference"
  let co ← getOptMsg kvs "contact_above" contactOfJson
  pure { height := h, reference := r, contact_above := co }

/-- JSON encoding of a FieldOxideLayer. -/
def jsonOfFieldOxideLayer (fl : FieldOxideLayer) : Json :=
  .obj [("dielectric_k", .num fl.dielectric_k)]

/-- JSON decoding of a FieldOxideLayer. -/
def fieldOxideLayerOfJson (j : Json) : Except String FieldOxideLayer := do
  let kvs ← asObj j
  let k ← getNum kvs "dielectric_k"
  pure { dielectric_k := k }

/-- JSON encoding of a MetalLayer. -/
def jsonOfMetalLayer (ml : MetalLayer) : Json :=
  .obj ([("height", .num ml.height), ("thickness", .num ml.thickness),
         ("reference_below", .str ml.reference_below),
         ("reference_above", .str ml.reference_above)] ++
        optField "contact_above" (ml.contact_above.map jsonOfContact))

/-- JSON decoding of a MetalLayer. -/
def metalLayerOfJson (j : Json) : Except String MetalLayer := do
  let kvs ← asObj j
  let h ← getNum kvs "height"
  let th ← getNum kvs "thickness"
  let rb ← getStr kvs "reference_below"
  let ra ← getStr kvs "reference_above"
  let co ← getOptMsg kvs "contact_above" contactOfJson
  pure { height := h, thickness := th, reference_below := rb,
         reference_above := ra, contact_above := co }

/-- JSON encoding of a SidewallDielectricLayer. -/
def jsonOfSidewallDielectricLayer (swl : SidewallDielectricLayer) : Json :=
  .obj [("dielectric_k", .num swl.dielectric_k),
        ("height_above_metal", .num swl.height_above_metal),
        ("width_outside_sidewall", .num swl.width_outside_sidewall),
        ("reference", .str swl.reference)]

/-- JSON decoding of a SidewallDielectricLayer. -/
def sidewallDielectricLayerOfJson (j : Json) :
    Except String SidewallDielectricLayer := do
  let kvs ← asObj j
  let k ← getNum kvs "dielectric_k"
  let ham ← getNum kvs "height_above_metal"
  let wos ← getNum kvs "width_outside_sidewall"
  let r ← getStr kvs "reference"
  pure { dielectric_k := k, height_above_metal := ham,
         width_outside_sidewall := wos, reference := r }

/-- JSON encoding of a SimpleDielectricLayer. -/
def jsonOfSimpleDielectricLayer (sdl : SimpleDielectricLayer) : Json :=
  .obj [("dielectric_k", .num sdl.dielectric_k),
        ("reference", .str sdl.reference)]

/-- JSON decoding of a SimpleDielectricLayer. -/
def simpleDielectricLayerOfJson (j : Json) :
    Except String SimpleDielectricLayer := do
  let kvs ← asObj j
  let k ← getNum kvs "dielectric_k"
  let r ← getStr kvs "reference"
  pure { dielectric_k := k, reference := r }

/-- JSON encoding of a ConformalDielectricLayer. -/
def jsonOfConformalDielectricLayer (cl : ConformalDielectricLayer) : Json :=
  .obj [("dielectric_k", .num cl.dielectric_k),
        ("thickness_over_metal", .num cl.thickness_over_metal),
        ("thickness_where_no_metal", .num cl.thickness_where_no_metal),
        ("thickness_sidewall", .num cl.thickness_sidewall),
        ("reference", .str cl.reference)]

/-- JSON decoding of a ConformalDielectricLayer. -/
def conformalDielectricLayerOfJson (j : Json) :
    Except String ConformalDielectricLayer := do
  let kvs ← asObj j
  let k ← getNum kvs "dielectric_k"
  let tom ← getNum kvs "thickness_over_metal"
  let twnm ← getNum kvs "thickness_where_no_metal"
  let ts ← getNum kvs "thickness_sidewall"
  let r ← getStr kvs "reference"
  pure { dielectric_k := k, thickness_over_metal := tom,
         thickness_where_no_metal := twnm, thickness_sidewall := ts,
         reference := r }

/-- JSON encoding of a StackLayerInfo: name, type tag, then one optional
sub-message per variant, absent variants omitted. -/
def jsonOfStackLayerInfo (li : StackLayerInfo) : Json :=
  .obj ([("name", .str li.name),
         ("layer_type", .str li.layer_type.protoName)] ++
        optField "substrate_layer"
          (li.substrate_layer.map jsonOfSubstrateLayer) ++
        optField "nwell_layer" (li.nwell_layer.map jsonOfNWellLayer) ++
        optField "diffusion_layer"
          (li.diffusion_layer.map jsonOfDiffusionLayer) ++
        optField "field_oxide_layer"
          (li.field_oxide_layer.map jsonOfFieldOxideLayer) ++
        optField "metal_layer" (li.metal_layer.map jsonOfMetalLayer) ++
        optField "sidewall_dielectric_layer"
          (li.sidewall_dielectric_layer.map jsonOfSidewallDielectricLayer) ++
        optField "simple_dielectric_layer"
          (li.simple_dielectric_layer.map jsonOfSimpleDielectricLayer) ++
        optField "conformal_dielectric_layer"
          (li.conformal_dielectric_layer.map jsonOfConformalDielectricLayer))

/-- JSON decoding of a StackLayerInfo. -/
def stackLayerInfoOfJson (j : Json) : Except String StackLayerInfo := do
  let kvs ← asObj j
  let name ← getStr kvs "name"
  let lt ← getEnum kvs "layer_type" layerTypeOfName .LAYER_TYPE_UNSPECIFIED
  let sub ← getOptMsg kvs "substrate_layer" substrateLayerOfJson
  let nw ← getOptMsg kvs "nwell_layer" nwellLayerOfJson
  let di ← getOptMsg kvs "diffusion_layer" diffusionLayerOfJson
  let fox ← getOptMsg kvs "field_oxide_layer" fieldOxideLayerOfJson
  let ml ← getOptMsg kvs "metal_layer" metalLayerOfJson
  let swl ← getOptMsg kvs "sidewall_dielectric_layer"
    sidewallDielectricLayerOfJson
  let sdl ← getOptMsg kvs "simple_dielectric_layer"
    simpleDielectricLayerOfJson
  let cdl ← getOptMsg kvs "conformal_dielectric_layer"
    conformalDielectricLayerOfJson
  pure { name := name, layer_type := lt, substrate_layer := sub,
         nwell_layer := nw, diffusion_layer := di, field_oxide_layer := fox,
         metal_layer := ml, sidewall_dielectric_layer := swl,
         simple_dielectric_layer := sdl, conformal_dielectric_layer := cdl }

/-- JSON encoding of a ProcessStackInfo. -/
def jsonOfProcessStackInfo (psi : ProcessStackInfo) : Json :=
  .obj [("layers", .arr (psi.layers.map jsonOfStackLayerInfo))]

/-- JSON decoding of a ProcessStackInfo. -/
def processStackInfoOfJson (j : Json) : Except String ProcessStackInfo := do
  let kvs ← asObj j
  let layers ← getRep kvs "layers" stackLayerInfoOfJson
  pure { layers := layers }

/-- JSON encoding of a LayerResistance; the corner adjustment fraction is a
presence-carrying field and is omitted when unset. -/
def jsonOfLayerResistance (lr : LayerResistance) : Json :=
  .obj ([("layer_name", .str lr.layer_name),
         ("resistance", .num lr.resistance)] ++
        optField "corner_adjustment_fraction"
          (lr.corner_adjustment_fraction.map Json.num))

/-- JSON decoding of a LayerResistance. -/
def layerResistanceOfJson (j : Json) : Except String LayerResistance := do
  let kvs ← asObj j
  let n ← getStr kvs "layer_name"
  let r ← getNum kvs "resistance"
  let caf ← getOptNum kvs "corner_adjustment_fraction"
  pure { layer_name := n, resistance := r,
         corner_adjustment_fraction := caf }

/-- JSON encoding of a ContactResistance. -/
def jsonOfContactResistance (cr : ContactResistance) : Json :=
  .obj [("contact_name", .str cr.contact_name),
        ("device_layer_name", .str cr.device_layer_name),
        ("resistance", .num cr.resistance)]

/-- JSON decoding of a ContactResistance. -/
def contactResistanceOfJson (j : Json) : Except String ContactResistance := do
  let kvs ← asObj j
  let n ← getStr kvs "contact_name"
  let d ← getStr kvs "device_layer_name"
  let r ← getNum kvs "resistance"
  pure { contact_name := n, device_layer_name := d, resistance := r }

/-- JSON encoding of a ViaResistance. -/
def jsonOfViaResistance (vr : ViaResistance) : Json :=
  .obj [("via_name", .str vr.via_name), ("resistance", .num vr.resistance)]

/-- JSON decoding of a ViaResistance. -/
def viaResistanceOfJson (j : Json) : Except String ViaResistance := do
  let kvs ← asObj j
  let n ← getStr kvs "via_name"
  let r ← getNum kvs "resistance"
  pure { via_name := n, resistance := r }

/-- JSON encoding of a ResistanceInfo. -/
def jsonOfResistanceInfo (ri : ResistanceInfo) : Json :=
  .obj [("layers", .arr (ri.layers.map jsonOfLayerResistance)),
        ("contacts", .arr (ri.contacts.map jsonOfContactResistance)),
        ("vias", .arr (ri.vias.map jsonOfViaResistance))]

/-- JSON decoding of a ResistanceInfo. -/
def resistanceInfoOfJson (j : Json) : Except String ResistanceInfo := do
  let kvs ← asObj j
  let layers ← getRep kvs "layers" layerResistanceOfJson
  let contacts ← getRep kvs "contacts" contactResistanceOfJson
  let vias ← getRep kvs "vias" viaResistanceOfJson
  pure { layers := layers, contacts := contacts, vias := vias }

/-- JSON encoding of a SubstrateCapacitance. -/
def jsonOfSubstrateCapacitance (sc : SubstrateCapacitance) : Json :=
  .obj [("layer_name", .str sc.layer_name),
        ("area_capacitance", .num sc.area_capacitance),
        ("perimeter_capacitance", .num sc.perimeter_capacitance)]

/-- JSON decoding of a SubstrateCapacitance. -/
def substrateCapacitanceOfJson (j : Json) :
    Except String SubstrateCapacitance := do
  let kvs ← asObj j
  let n ← getStr kvs "layer_name"
  let a ← getNum kvs "area_capacitance"
  let p ← getNum kvs "perimeter_capacitance"
  pure { layer_name := n, area_capacitance := a, perimeter_capacitance := p }

/-- JSON encoding of an OverlapCapacitance. -/
def jsonOfOverlapCapacitance (oc : OverlapCapacitance) : Json :=
  .obj [("top_layer_name", .str oc.top_layer_name),
        ("bottom_layer_name", .str oc.bottom_layer_name),
        ("capacitance", .num oc.capacitance)]

/-- JSON decoding of an OverlapCapacitance. -/
def overlapCapacitanceOfJson (j : Json) :
    Except String OverlapCapacitance := do
  let kvs ← asObj j
  let t ← getStr kvs "top_layer_name"
  let b ← getStr kvs "bottom_layer_name"
  let c ← getNum kvs "capacitance"
  pure { top_layer_name := t, bottom_layer_name := b, capacitance := c }

/-- JSON encoding of a SidewallCapacitance. -/
def jsonOfSidewallCapacitance (swc : SidewallCapacitance) : Json :=
  .obj [("layer_name", .str swc.layer_name),
        ("capacitance", .num swc.capacitance),
        ("offset", .num swc.offset)]

/-- JSON decoding of a SidewallCapacitance. -/
def sidewallCapacitanceOfJson (j : Json) :
    Except String SidewallCapacitance := do
  let kvs ← asObj j
  let n ← getStr kvs "layer_name"
  let c ← getNum kvs "capacitance"
  let o ← getNum kvs "offset"
  pure { layer_name := n, capacitance := c, offset := o }

/-- JSON encoding of a SideOverlapCapacitance. -/
def jsonOfSideOverlapCapacitance (soc : SideOverlapCapacitance) : Json :=
  .obj [("in_layer_name", .str soc.in_layer_name),
        ("out_layer_name", .str soc.out_layer_name),
        ("capacitance", .num soc.capacitance)]

/-- JSON decoding of a SideOverlapCapacitance. -/
def sideOverlapCapacitanceOfJson (j : Json) :
    Except String SideOverlapCapacitance := do
  let kvs ← asObj j
  let i ← getStr kvs "in_layer_name"
  let o ← getStr kvs "out_layer_name"
  let c ← getNum kvs "capacitance"
  pure { in_layer_name := i, out_layer_name := o, capacitance := c }

/-- JSON encoding of a CapacitanceInfo. -/
def jsonOfCapacitanceInfo (ci : CapacitanceInfo) : Json :=
  .obj [("substrates", .arr (ci.substrates.map jsonOfSubstrateCapacitance)),
        ("overlaps", .arr (ci.overlaps.map jsonOfOverlapCapacitance)),
        ("sidewalls", .arr (ci.sidewalls.map jsonOfSidewallCapacitance)),
        ("sideoverlaps",
         .arr (ci.sideoverlaps.map jsonOfSideOverlapCapacitance))]

/-- JSON decoding of a CapacitanceInfo. -/
def capacitanceInfoOfJson (j : Json) : Except String CapacitanceInfo := do
  let kvs ← asObj j
  let s ← getRep kvs "substrates" substrateCapacitanceOfJson
  let o ← getRep kvs "overlaps" overlapCapacitanceOfJson
  let sw ← getRep kvs "sidewalls" sidewallCapacitanceOfJson
  let so ← getRep kvs "sideoverlaps" sideOverlapCapacitanceOfJson
  pure { substrates := s, overlaps := o, sidewalls := sw, sideoverlaps := so }

/-- JSON encoding of a ProcessParasiticsInfo. -/
def jsonOfProcessParasiticsInfo (ex : ProcessParasiticsInfo) : Json :=
  .obj ([("side_halo", .num ex.side_halo)] ++
        optField "resistance" (ex.resistance.map jsonOfResistanceInfo) ++
        optField "capacitance" (ex.capacitance.map jsonOfCapacitanceInfo))

/-- JSON decoding of a ProcessParasiticsInfo. -/
def processParasiticsInfoOfJson (j : Json) :
    Except String ProcessParasiticsInfo := do
  let kvs ← asObj j
  let sh ← getNum kvs "side_halo"
  let r ← getOptMsg kvs "resistance" resistanceInfoOfJson
  let c ← getOptMsg kvs "capacitance" capacitanceInfoOfJson
  pure { side_halo := sh, resistance := r, capacitance := c }

/-- JSON encoding of a Technology document. -/
def jsonOfTechnology (tech : Technology) : Json :=
  .obj ([("name", .str tech.name),
         ("layers", .arr (tech.layers.map jsonOfLayerInfo)),
         ("pin_layer_mappings",
          .arr (tech.pin_layer_mappings.map jsonOfPinLayerMapping)),
         ("lvs_computed_layers",
          .arr (tech.lvs_computed_layers.map jsonOfComputedLayerInfo))] ++
        optField "process_stack"
          (tech.process_stack.map jsonOfProcessStackInfo) ++
        optField "process_parasitics"
          (tech.process_parasitics.map jsonOfProcessParasiticsInfo))

/-- JSON decoding of a Technology document. -/
def technologyOfJson (j : Json) : Except String Technology := do
  let kvs ← asObj j
  let name ← getStr kvs "name"
  let layers ← getRep kvs "layers" layerInfoOfJson
  let plm ← getRep kvs "pin_layer_mappings" pinLayerMappingOfJson
  let lvs ← getRep kvs "lvs_computed_layers" computedLayerInfoOfJson
  let ps ← getOptMsg kvs "process_stack" processStackInfoOfJson
  let pp ← getOptMsg kvs "process_parasitics" processParasiticsInfoOfJson
  pure { name := name, layers := layers, pin_layer_mappings := plm,
         lvs_computed_layers := lvs, process_stack := ps,
         process_parasitics := pp }

/-!
Round-trip lemmas for the JSON codec, bottom-up over the schema.
-/

/-- Lookup distributes over concatenation of object fields. -/
theorem lookupField_append (l1 l2 : List (String × Json)) (k : String) :
    lookupField (l1 ++ l2) k =
      (lookupField l1 k).or (lookupField l2 k) := by
  induction l1 with
  | nil => simp [lookupField]
  | cons hd tl ih =>
      obtain ⟨k', v⟩ := hd
      by_cases h : k' = k <;> simp [lookupField, h, ih]

/-- Lookup of the key of an optional field segment returns the optional
value. -/
theorem lookupField_optField_self (k : String) (m : Option Json) :
    lookupField (optField k m) k = m := by
  cases m <;> simp [optField, lookupField]

/-- Lookup of a different key skips an optional field segment. -/
theorem lookupField_optField_ne (k' k : String) (m : Option Json)
    (h : k' ≠ k) : lookupField (optField k' m) k = none := by
  cases m <;> simp [optField, lookupField, h]

/-- Decoding the encoding of an optional sub-message recovers it, given the
element round-trip. -/
theorem decOptVal_map {α β : Type} {enc : α → β}
    {dec : β → Except String α}
    (h : ∀ x, dec (enc x) = .ok x) (o : Option α) :
    decOptVal dec (o.map enc) = .ok o := by
  cases o <;> simp [decOptVal, h, Except.map]

/-- Mapping a decoder over encoded elements recovers the element list, given
the element round-trip. -/
theorem mapDec_map {α β : Type} {enc : α → β}
    {dec : β → Except String α}
    (h : ∀ x, dec (enc x) = .ok x) (xs : List α) :
    mapDec dec (xs.map enc) = .ok xs := by
  induction xs with
  | nil => rfl
  | cons hd tl ih =>
      simp [mapDec, h, ih, Except.bind, bind, pure, Except.pure]

/-- Decoding the encoding of a repeated field recovers the element list. -/
theorem decRepVal_map {α : Type} {enc : α → Json}
    {dec : Json → Except String α}
    (h : ∀ x, dec (enc x) = .ok x) (xs : List α) :
    decRepVal dec (some (.arr (xs.map enc))) = .ok xs := by
  simp [decRepVal, mapDec_map h]

/-- Decoding the proto name of a Purpose value recovers the value. -/
theorem decEnumVal_purpose (d : Purpose) (p : Purpose) :
    decEnumVal purposeOfName d (some (.str p.protoName)) = .ok p := by
  cases p <;> rfl

/-- Decoding the proto name of a ComputedLayerKind value recovers the
value. -/
theorem decEnumVal_kind (d : ComputedLayerKind) (k : ComputedLayerKind) :
    decEnumVal kindOfName d (some (.str k.protoName)) = .ok k := by
  cases k <;> rfl

/-- Decoding the proto name of a LayerType value recovers the value. -/
theorem decEnumVal_layerType (d : LayerType) (t : LayerType) :
    decEnumVal layerTypeOfName d (some (.str t.protoName)) = .ok t := by
  cases t <;> rfl

/-- Decoding the number of a natural recovers it. -/
theorem decNatVal_natCast (n : Nat) :
    decNatVal (some (.num (n : ℚ))) = .ok n := by
  simp [decNatVal, Rat.den_natCast, Rat.num_natCast]

/-- GDSPair JSON round-trip. -/
theorem gdsPairOfJson_jsonOf (p : GDSPair) :
    gdsPairOfJson (jsonOfGDSPair p) = .ok p := by
  simp [jsonOfGDSPair, gdsPairOfJson, asObj, getNat, lookupField,
    decNatVal_natCast, Except.bind, bind, pure, Except.pure]

/-- LayerInfo JSON round-trip. -/
theorem layerInfoOfJson_jsonOf (li : LayerInfo) :
    layerInfoOfJson (jsonOfLayerInfo li) = .ok li := by
  simp [jsonOfLayerInfo, layerInfoOfJson, asObj, getStr, getNat, getEnum,
    getOptMsg, lookupField, lookupField_append, lookupField_optField_self,
    lookupField_optField_ne, decStrVal, decNatVal_natCast,
    decEnumVal_purpose, decOptVal_map gdsPairOfJson_jsonOf,
    Except.bind, bind, pure, Except.pure]

/-- PinLayerMapping JSON round-trip. -/
theorem pinLayerMappingOfJson_jsonOf (m : PinLayerMapping) :
    pinLayerMappingOfJson (jsonOfPinLayerMapping m) = .ok m := by
  simp [jsonOfPinLayerMapping, pinLayerMappingOfJson, asObj, getStr, getNat,
    lookupField, decStrVal, decNatVal_natCast, Except.bind, bind, pure,
    Except.pure]

/-- ComputedLayerInfo JSON round-trip. -/
theorem computedLayerInfoOfJson_jsonOf (cl : ComputedLayerInfo) :
    computedLayerInfoOfJson (jsonOfComputedLayerInfo cl) = .ok cl := by
  simp [jsonOfComputedLayerInfo, computedLayerInfoOfJson, asObj, getStr,
    getEnum, getOptMsg, lookupField, lookupField_append,
    lookupField_optField_self, lookupField_optField_ne, decStrVal,
    decEnumVal_kind, decOptVal_map layerInfoOfJson_jsonOf,
    Except.bind, bind, pure, Except.pure]

/-- Contact JSON round-trip. -/
theorem contactOfJson_jsonOf (co : Contact) :
    contactOfJson (jsonOfContact co) = .ok co := by
  simp [jsonOfContact, contactOfJson, asObj, getStr, getNum, lookupField,
    decStrVal, decNumVal, Except.bind, bind, pure, Except.pure]

/-- SubstrateLayer JSON round-trip. -/
theorem substrateLayerOfJson_jsonOf (sl : SubstrateLayer) :
    substrateLayerOfJson (jsonOfSubstrateLayer sl) = .ok sl := by
  simp [jsonOfSubstrateLayer, substrateLayerOfJson, asObj, getStr, getNum,
    lookupField, decStrVal, decNumVal, Except.bind, bind, pure, Except.pure]

/-- NWellLayer JSON round-trip. -/
theorem nwellLayerOfJson_jsonOf (wl : NWellLayer) :
    nwellLayerOfJson (jsonOfNWellLayer wl) = .ok wl := by
  simp [jsonOfNWellLayer, nwellLayerOfJson, asObj, getStr, getNum, getOptMsg,
    lookupField, lookupField_append, lookupField_optField_self,
    lookupField_optField_ne, decStrVal, decNumVal,
    decOptVal_map contactOfJson_jsonOf, Except.bind, bind, pure, Except.pure]

/-- DiffusionLayer JSON round-trip. -/
theorem diffusionLayerOfJson_jsonOf (dl : DiffusionLayer) :
    diffusionLayerOfJson (jsonOfDiffusionLayer dl) = .ok dl := by
  simp [jsonOfDiffusionLayer, diffusionLayerOfJson, asObj, getStr, getNum,
    getOptMsg, lookupField, lookupField_append, lookupField_optField_self,
    lookupField_optField_ne, decStrVal, decNumVal,
    decOptVal_map contactOfJson_jsonOf, Except.bind, bind, pure, Except.pure]

/-- FieldOxideLayer JSON round-trip. -/
theorem fieldOxideLayerOfJson_jsonOf (fl : FieldOxideLayer) :
    fieldOxideLayerOfJson (jsonOfFieldOxideLayer fl) = .ok fl := by
  simp [jsonOfFieldOxideLayer, fieldOxideLayerOfJson, asObj, getNum,
    lookupField, decNumVal, Except.bind, bind, pure, Except.pure]

/-- MetalLayer JSON round-trip. -/
theorem metalLayerOfJson_jsonOf (ml : MetalLayer) :
    metalLayerOfJson (jsonOfMetalLayer ml) = .ok ml := by
  simp [jsonOfMetalLayer, metalLayerOfJson, asObj, getStr, getNum, getOptMsg,
    lookupField, lookupField_append, lookupField_optField_self,
    lookupField_optField_ne, decStrVal, decNumVal,
    decOptVal_map contactOfJson_jsonOf, Except.bind, bind, pure, Except.pure]

/-- SidewallDielectricLayer JSON round-trip. -/
theorem sidewallDielectricLayerOfJson_jsonOf (swl : SidewallDielectricLayer) :
    sidewallDielectricLayerOfJson (jsonOfSidewallDielectricLayer swl) =
      .ok swl := by
  simp [jsonOfSidewallDielectricLayer, sidewallDielectricLayerOfJson, asObj,
    getStr, getNum, lookupField, decStrVal, decNumVal, Except.bind, bind,
    pure, Except.pure]

/-- SimpleDielectricLayer JSON round-trip. -/
theorem simpleDielectricLayerOfJson_jsonOf (sdl : SimpleDielectricLayer) :
    simpleDielectricLayerOfJson (jsonOfSimpleDielectricLayer sdl) =
      .ok sdl := by
  simp [jsonOfSimpleDielectricLayer, simpleDielectricLayerOfJson, asObj,
    getStr, getNum, lookupField, decStrVal, decNumVal, Except.bind, bind,
    pure, Except.pure]

/-- ConformalDielectricLayer JSON round-trip. -/
theorem conformalDielectricLayerOfJson_jsonOf
    (cl : ConformalDielectricLayer) :
    conformalDielectricLayerOfJson (jsonOfConformalDielectricLayer cl) =
      .ok cl := by
  simp [jsonOfConformalDielectricLayer, conformalDielectricLayerOfJson,
    asObj, getStr, getNum, lookupField, decStrVal, decNumVal, Except.bind,
    bind, pure, Except.pure]

/-- StackLayerInfo JSON round-trip. -/
theorem stackLayerInfoOfJson_jsonOf (li : StackLayerInfo) :
    stackLayerInfoOfJson (jsonOfStackLayerInfo li) = .ok li := by
  simp [jsonOfStackLayerInfo, stackLayerInfoOfJson, asObj, getStr, getEnum,
    getOptMsg, lookupField, lookupField_append, lookupField_optField_self,
    lookupField_optField_ne, decStrVal, decEnumVal_layerType,
    decOptVal_map substrateLayerOfJson_jsonOf,
    decOptVal_map nwellLayerOfJson_jsonOf,
    decOptVal_map diffusionLayerOfJson_jsonOf,
    decOptVal_map fieldOxideLayerOfJson_jsonOf,
    decOptVal_map metalLayerOfJson_jsonOf,
    decOptVal_map sidewallDielectricLayerOfJson_jsonOf,
    decOptVal_map simpleDielectricLayerOfJson_jsonOf,
    decOptVal_map conformalDielectricLayerOfJson_jsonOf,
    Except.bind, bind, pure, Except.pure]

/-- ProcessStackInfo JSON round-trip. -/
theorem processStackInfoOfJson_jsonOf (psi : ProcessStackInfo) :
    processStackInfoOfJson (jsonOfProcessStackInfo psi) = .ok psi := by
  simp [jsonOfProcessStackInfo, processStackInfoOfJson, asObj, getRep,
    lookupField, decRepVal_map stackLayerInfoOfJson_jsonOf, Except.bind,
    bind, pure, Except.pure]

/-- LayerResistance JSON round-trip. -/
theorem layerResistanceOfJson_jsonOf (lr : LayerResistance) :
    layerResistanceOfJson (jsonOfLayerResistance lr) = .ok lr := by
  have hnum : ∀ q : ℚ, decNumJ (Json.num q) = .ok q := fun _ => rfl
  simp [jsonOfLayerResistance, layerResistanceOfJson, asObj, getStr, getNum,
    getOptNum, lookupField, lookupField_append, lookupField_optField_self,
    lookupField_optField_ne, decStrVal, decNumVal, decOptVal_map hnum,
    Except.bind, bind, pure, Except.pure]

/-- ContactResistance JSON round-trip. -/
theorem contactResistanceOfJson_jsonOf (cr : ContactResistance) :
    contactResistanceOfJson (jsonOfContactResistance cr) = .ok cr := by
  simp [jsonOfContactResistance, contactResistanceOfJson, asObj, getStr,
    getNum, lookupField, decStrVal, decNumVal, Except.bind, bind, pure,
    Except.pure]

/-- ViaResistance JSON round-trip. -/
theorem viaResistanceOfJson_jsonOf (vr : ViaResistance) :
    viaResistanceOfJson (jsonOfViaResistance vr) = .ok vr := by
  simp [jsonOfViaResistance, viaResistanceOfJson, asObj, getStr, getNum,
    lookupField, decStrVal, decNumVal, Except.bind, bind, pure, Except.pure]

/-- ResistanceInfo JSON round-trip. -/
theorem resistanceInfoOfJson_jsonOf (ri : ResistanceInfo) :
    resistanceInfoOfJson (jsonOfResistanceInfo ri) = .ok ri := by
  simp [jsonOfResistanceInfo, resistanceInfoOfJson, asObj, getRep,
    lookupField, decRepVal_map layerResistanceOfJson_jsonOf,
    decRepVal_map contactResistanceOfJson_jsonOf,
    decRepVal_map viaResistanceOfJson_jsonOf,
    Except.bind, bind, pure, Except.pure]

/-- SubstrateCapacitance JSON round-trip. -/
theorem substrateCapacitanceOfJson_jsonOf (sc : SubstrateCapacitance) :
    substrateCapacitanceOfJson (jsonOfSubstrateCapacitance sc) = .ok sc := by
  simp [jsonOfSubstrateCapacitance, substrateCapacitanceOfJson, asObj,
    getStr, getNum, lookupField, decStrVal, decNumVal, Except.bind, bind,
    pure, Except.pure]

/-- OverlapCapacitance JSON round-trip. -/
theorem overlapCapacitanceOfJson_jsonOf (oc : OverlapCapacitance) :
    overlapCapacitanceOfJson (jsonOfOverlapCapacitance oc) = .ok oc := by
  simp [jsonOfOverlapCapacitance, overlapCapacitanceOfJson, asObj, getStr,
    getNum, lookupField, decStrVal, decNumVal, Except.bind, bind, pure,
    Except.pure]

/-- SidewallCapacitance JSON round-trip. -/
theorem sidewallCapacitanceOfJson_jsonOf (swc : SidewallCapacitance) :
    sidewallCapacitanceOfJson (jsonOfSidewallCapacitance swc) = .ok swc := by
  simp [jsonOfSidewallCapacitance, sidewallCapacitanceOfJson, asObj, getStr,
    getNum, lookupField, decStrVal, decNumVal, Except.bind, bind, pure,
    Except.pure]

/-- SideOverlapCapacitance JSON round-trip. -/
theorem sideOverlapCapacitanceOfJson_jsonOf (soc : SideOverlapCapacitance) :
    sideOverlapCapacitanceOfJson (jsonOfSideOverlapCapacitance soc) =
      .ok soc := by
  simp [jsonOfSideOverlapCapacitance, sideOverlapCapacitanceOfJson, asObj,
    getStr, getNum, lookupField, decStrVal, decNumVal, Except.bind, bind,
    pure, Except.pure]

/-- CapacitanceInfo JSON round-trip. -/
theorem capacitanceInfoOfJson_jsonOf (ci : CapacitanceInfo) :
    capacitanceInfoOfJson (jsonOfCapacitanceInfo ci) = .ok ci := by
  simp [jsonOfCapacitanceInfo, capacitanceInfoOfJson, asObj, getRep,
    lookupField, decRepVal_map substrateCapacitanceOfJson_jsonOf,
    decRepVal_map overlapCapacitanceOfJson_jsonOf,
    decRepVal_map sidewallCapacitanceOfJson_jsonOf,
    decRepVal_map sideOverlapCapacitanceOfJson_jsonOf,
    Except.bind, bind, pure, Except.pure]

/-- ProcessParasiticsInfo JSON round-trip. -/
theorem processParasiticsInfoOfJson_jsonOf (ex : ProcessParasiticsInfo) :
    processParasiticsInfoOfJson (jsonOfProcessParasiticsInfo ex) =
      .ok ex := by
  simp [jsonOfProcessParasiticsInfo, processParasiticsInfoOfJson, asObj,
    getNum, getOptMsg, lookupField, lookupField_append,
    lookupField_optField_self, lookupField_optField_ne, decNumVal,
    decOptVal_map resistanceInfoOfJson_jsonOf,
    decOptVal_map capacitanceInfoOfJson_jsonOf,
    Except.bind, bind, pure, Except.pure]

/-- Technology JSON round-trip. -/
theorem technologyOfJson_jsonOf (tech : Technology) :
    technologyOfJson (jsonOfTechnology tech) = .ok tech := by
  simp [jsonOfTechnology, technologyOfJson, asObj, getStr, getRep, getOptMsg,
    lookupField, lookupField_append, lookupField_optField_self,
    lookupField_optField_ne, decStrVal,
    decRepVal_map layerInfoOfJson_jsonOf,
    decRepVal_map pinLayerMappingOfJson_jsonOf,
    decRepVal_map computedLayerInfoOfJson_jsonOf,
    decOptVal_map processStackInfoOfJson_jsonOf,
    decOptVal_map processParasiticsInfoOfJson_jsonOf,
    Except.bind, bind, pure, Except.pure]

/-!
Binary codec.  Modelled from the spec: the compact binary encoding is dense,
versioned and implementation-defined, used for fast reload rather than hand
inspection.  It is modelled as a positional token stream: every field of
every record is emitted in declaration order with no field names, optional
sub-messages carry a one-token presence marker and repeated fields a count,
and a decoder consumes the stream front to back, returning the unconsumed
tail.
-/

/-- One token of the dense binary stream. -/
inductive BTok where
  | nat (n : Nat)
  | rat (q : ℚ)
  | str (s : String)
deriving DecidableEq

/-- Parse one natural token. -/
def natOfBin : List BTok → Except String (Nat × List BTok)
  | .nat n :: r => .ok (n, r)
  | _ => .error "expected nat token"

/-- Parse one rational token. -/
def ratOfBin : List BTok → Except String (ℚ × List BTok)
  | .rat q :: r => .ok (q, r)
  | _ => .error "expected rat token"

/-- Parse one string token. -/
def strOfBin : List BTok → Except String (String × List BTok)
  | .str s :: r => .ok (s, r)
  | _ => .error "expected string token"

/-- Emit an optional record: a one-token presence marker, then the payload
when present. -/
def binOfOpt (enc : α → List BTok) : Option α → List BTok
  | none => [.nat 0]
  | some x => .nat 1 :: enc x

/-- Parse an optional record emitted by binOfOpt. -/
def optOfBin (dec : List BTok → Except String (α × List BTok)) :
    List BTok → Except String (Option α × List BTok)
  | .nat 0 :: r => .ok (none, r)
  | .nat 1 :: r => do
      let (x, r1) ← dec r
      pure (some x, r1)
  | _ => .error "expected presence marker"

/-- Emit a repeated record: an element count, then the elements back to
back. -/
def binOfList (enc : α → List BTok) (xs : List α) : List BTok :=
  .nat xs.length :: xs.foldr (fun x acc => enc x ++ acc) []

/-- Parse a fixed number of records back to back. -/
def listOfBin (dec : List BTok → Except String (α × List BTok)) :
    Nat → List BTok → Except String (List α × List BTok)
  | 0, ts => .ok ([], ts)
  | n + 1, ts => do
      let (x, ts1) ← dec ts
      let (xs, ts2) ← listOfBin dec n ts1
      pure (x :: xs, ts2)

/-- Parse a repeated record emitted by binOfList. -/
def repOfBin (dec : List BTok → Except String (α × List BTok))
    (ts : List BTok) : Except String (List α × List BTok) := do
  let (n, ts1) ← natOfBin ts
  listOfBin dec n ts1

/-- Emit an enum through its proto name table. -/
def binOfEnum (name : α → String) (v : α) : List BTok :=
  [.str (name v)]

/-- Parse an enum through its proto name table. -/
def enumOfBin (ofName : String → Option α) :
    List BTok → Except String (α × List BTok)
  | .str s :: r =>
      match ofName s with
      | some v => .ok (v, r)
      | none => .error "unknown enum value"
  | _ => .error "expected enum token"

/-- Binary encoding of a GDSPair. -/
def binOfGDSPair (p : GDSPair) : List BTok :=
  [.nat p.layer, .nat p.datatype]

/-- Binary decoding of a GDSPair. -/
def gdsPairOfBin (ts : List BTok) : Except String (GDSPair × List BTok) := do
  let (l, ts1) ← natOfBin ts
  let (d, ts2) ← natOfBin ts1
  pure ({ layer := l, datatype := d }, ts2)

/-- Binary encoding of a LayerInfo. -/
def binOfLayerInfo (li : LayerInfo) : List BTok :=
  [.str li.name, .str li.description] ++
  binOfEnum Purpose.protoName li.purpose ++
  [.nat li.gds_layer, .nat li.gds_datatype] ++
  binOfOpt binOfGDSPair li.drw_gds_pair ++
  binOfOpt binOfGDSPair li.pin_gds_pair ++
  binOfOpt binOfGDSPair li.label_gds_pair

/-- Binary decoding of a LayerInfo. -/
def layerInfoOfBin (ts : List BTok) :
    Except String (LayerInfo × List BTok) := do
  let (name, ts1) ← strOfBin ts
  let (description, ts2) ← strOfBin ts1
  let (purpose, ts3) ← enumOfBin purposeOfName ts2
  let (gl, ts4) ← natOfBin ts3
  let (gd, ts5) ← natOfBin ts4
  let (drw, ts6) ← optOfBin gdsPairOfBin ts5
  let (pin, ts7) ← optOfBin gdsPairOfBin ts6
  let (label, ts8) ← optOfBin gdsPairOfBin ts7
  pure ({ name := name, description := description, purpose := purpose,
          gds_layer := gl, gds_datatype := gd, drw_gds_pair := drw,
          pin_gds_pair := pin, label_gds_pair := label }, ts8)

/-- Binary encoding of a PinLayerMapping. -/
def binOfPinLayerMapping (m : PinLayerMapping) : List BTok :=
  [.str m.description, .nat m.pin_gds_layer, .nat m.pin_gds_datatype,
   .nat m.drw_gds_layer, .nat m.drw_gds_datatype]

/-- Binary decoding of a PinLayerMapping. -/
def pinLayerMappingOfBin (ts : List BTok) :
    Except String (PinLayerMapping × List BTok) := do
  let (d, ts1) ← strOfBin ts
  let (pl, ts2) ← natOfBin ts1
  let (pd, ts3) ← natOfBin ts2
  let (dl, ts4) ← natOfBin ts3
  let (dd, ts5) ← natOfBin ts4
  pure ({ description := d, pin_gds_layer := pl, pin_gds_datatype := pd,
          drw_gds_layer := dl, drw_gds_datatype := dd }, ts5)

/-- Binary encoding of a ComputedLayerInfo. -/
def binOfComputedLayerInfo (cl : ComputedLayerInfo) : List BTok :=
  binOfEnum ComputedLayerKind.protoName cl.kind ++
  [.str cl.original_layer_name] ++
  binOfOpt binOfLayerInfo cl.layer_info

/-- Binary decoding of a ComputedLayerInfo. -/
def computedLayerInfoOfBin (ts : List BTok) :
    Except String (ComputedLayerInfo × List BTok) := do
  let (kind, ts1) ← enumOfBin kindOfName ts
  let (oln, ts2) ← strOfBin ts1
  let (li, ts3) ← optOfBin layerInfoOfBin ts2
  pure ({ kind := kind, original_layer_name := oln, layer_info := li }, ts3)

/-- Binary encoding of a Contact. -/
def binOfContact (co : Contact) : List BTok :=
  [.str co.name, .str co.layer_below, .str co.metal_above,
   .rat co.thickness, .rat co.width, .rat co.spacing, .rat co.border]

/-- Binary decoding of a Contact. -/
def contactOfBin (ts : List BTok) : Except String (Contact × List BTok) := do
  let (n, ts1) ← strOfBin ts
  let (lb, ts2) ← strOfBin ts1
  let (ma, ts3) ← strOfBin ts2
  let (th, ts4) ← ratOfBin ts3
  let (w, ts5) ← ratOfBin ts4
  let (sp, ts6) ← ratOfBin ts5
  let (b, ts7) ← ratOfBin ts6
  pure ({ name := n, layer_below := lb, metal_above := ma, thickness := th,
          width := w, spacing := sp, border := b }, ts7)

/-- Binary encoding of a SubstrateLayer. -/
def binOfSubstrateLayer (sl : SubstrateLayer) : List BTok :=
  [.rat sl.height, .rat sl.thickness, .str sl.reference]

/-- Binary decoding of a SubstrateLayer. -/
def substrateLayerOfBin (ts : List BTok) :
    Except String (SubstrateLayer × List BTok) := do
  let (h, ts1) ← ratOfBin ts
  let (th, ts2) ← ratOfBin ts1
  let (r, ts3) ← strOfBin ts2
  pure ({ height := h, thickness := th, reference := r }, ts3)

/-- Binary encoding of an NWellLayer. -/
def binOfNWellLayer (wl : NWellLayer) : List BTok :=
  [.rat wl.height, .str wl.reference] ++
  binOfOpt binOfContact wl.contact_above

/-- Binary decoding of an NWellLayer. -/
def nwellLayerOfBin (ts : List BTok) :
    Except String (NWellLayer × List BTok) := do
  let (h, ts1) ← ratOfBin ts
  let (r, ts2) ← strOfBin ts1
  let (co, ts3) ← optOfBin contactOfBin ts2
  pure ({ height := h, reference := r, contact_above := co }, ts3)

/-- Binary encoding of a DiffusionLayer. -/
def binOfDiffusionLayer (dl : DiffusionLayer) : List BTok :=
  [.rat dl.height, .str dl.reference] ++
  binOfOpt binOfContact dl.contact_above

/-- Binary decoding of a DiffusionLayer. -/
def diffusionLayerOfBin (ts : List BTok) :
    Except String (DiffusionLayer × List BTok) := do
  let (h, ts1) ← ratOfBin ts
  let (r, ts2) ← strOfBin ts1
  let (co, ts3) ← optOfBin contactOfBin ts2
  pure ({ height := h, reference := r, contact_above := co }, ts3)

/-- Binary encoding of a FieldOxideLayer. -/
def binOfFieldOxideLayer (fl : FieldOxideLayer) : List BTok :=
  [.rat fl.dielectric_k]

/-- Binary decoding of a FieldOxideLayer. -/
def fieldOxideLayerOfBin (ts : List BTok) :
    Except String (FieldOxideLayer × List BTok) := do
  let (k, ts1) ← ratOfBin ts
  pure ({ dielectric_k := k }, ts1)

/-- Binary encoding of a MetalLayer. -/
def binOfMetalLayer (ml : MetalLayer) : List BTok :=
  [.rat ml.height, .rat ml.thickness, .str ml.reference_below,
   .str ml.reference_above] ++
  binOfOpt binOfContact ml.contact_above

/-- Binary decoding of a MetalLayer. -/
def metalLayerOfBin (ts : List BTok) :
    Except String (MetalLayer × List BTok) := do
  let (h, ts1) ← ratOfBin ts
  let (th, ts2) ← ratOfBin ts1
  let (rb, ts3) ← strOfBin ts2
  let (ra, ts4) ← strOfBin ts3
  let (co, ts5) ← optOfBin contactOfBin ts4
  pure ({ height := h, thickness := th, reference_below := rb,
          reference_above := ra, contact_above := co }, ts5)

/-- Binary encoding of a SidewallDielectricLayer. -/
def binOfSidewallDielectricLayer (swl : SidewallDielectricLayer) :
    List BTok :=
  [.rat swl.dielectric_k, .rat swl.height_above_metal,
   .rat swl.width_outside_sidewall, .str swl.reference]

/-- Binary decoding of a SidewallDielectricLayer. -/
def sidewallDielectricLayerOfBin (ts : List BTok) :
    Except String (SidewallDielectricLayer × List BTok) := do
  let (k, ts1) ← ratOfBin ts
  let (ham, ts2) ← ratOfBin ts1
  let (wos, ts3) ← ratOfBin ts2
  let (r, ts4) ← strOfBin ts3
  pure ({ dielectric_k := k, height_above_metal := ham,
          width_outside_sidewall := wos, reference := r }, ts4)

/-- Binary encoding of a SimpleDielectricLayer. -/
def binOfSimpleDielectricLayer (sdl : SimpleDielectricLayer) : List BTok :=
  [.rat sdl.dielectric_k, .str sdl.reference]

/-- Binary decoding of a SimpleDielectricLayer. -/
def simpleDielectricLayerOfBin (ts : List BTok) :
    Except String (SimpleDielectricLayer × List BTok) := do
  let (k, ts1) ← ratOfBin ts
  let (r, ts2) ← strOfBin ts1
  pure ({ dielectric_k := k, reference := r }, ts2)

/-- Binary encoding of a ConformalDielectricLayer. -/
def binOfConformalDielectricLayer (cl : ConformalDielectricLayer) :
    List BTok :=
  [.rat cl.dielectric_k, .rat cl.thickness_over_metal,
   .rat cl.thickness_where_no_metal, .rat cl.thickness_sidewall,
   .str cl.reference]

/-- Binary decoding of a ConformalDielectricLayer. -/
def conformalDielectricLayerOfBin (ts : List BTok) :
    Except String (ConformalDielectricLayer × List BTok) := do
  let (k, ts1) ← ratOfBin ts
  let (tom, ts2) ← ratOfBin ts1
  let (twnm, ts3) ← ratOfBin ts2
  let (tsw, ts4) ← ratOfBin ts3
  let (r, ts5) ← strOfBin ts4
  pure ({ dielectric_k := k, thickness_over_metal := tom,
          thickness_where_no_metal := twnm, thickness_sidewall := tsw,
          reference := r }, ts5)

/-- Binary encoding of a StackLayerInfo. -/
def binOfStackLayerInfo (li : StackLayerInfo) : List BTok :=
  [.str li.name] ++
  binOfEnum LayerType.protoName li.layer_type ++
  binOfOpt binOfSubstrateLayer li.substrate_layer ++
  binOfOpt binOfNWellLayer li.nwell_layer ++
  binOfOpt binOfDiffusionLayer li.diffusion_layer ++
  binOfOpt binOfFieldOxideLayer li.field_oxide_layer ++
  binOfOpt binOfMetalLayer li.metal_layer ++
  binOfOpt binOfSidewallDielectricLayer li.sidewall_dielectric_layer ++
  binOfOpt binOfSimpleDielectricLayer li.simple_dielectric_layer ++
  binOfOpt binOfConformalDielectricLayer li.conformal_dielectric_layer

/-- Binary decoding of a StackLayerInfo. -/
def stackLayerInfoOfBin (ts : List BTok) :
    Except String (StackLayerInfo × List BTok) := do
  let (name, ts1) ← strOfBin ts
  let (lt, ts2) ← enumOfBin layerTypeOfName ts1
  let (sub, ts3) ← optOfBin substrateLayerOfBin ts2
  let (nw, ts4) ← optOfBin nwellLayerOfBin ts3
  let (di, ts5) ← optOfBin diffusionLayerOfBin ts4
  let (fox, ts6) ← optOfBin fieldOxideLayerOfBin ts5
  let (ml, ts7) ← optOfBin metalLayerOfBin ts6
  let (swl, ts8) ← optOfBin sidewallDielectricLayerOfBin ts7
  let (sdl, ts9) ← optOfBin simpleDielectricLayerOfBin ts8
  let (cdl, ts10) ← optOfBin conformalDielectricLayerOfBin ts9
  pure ({ name := name, layer_type := lt, substrate_layer := sub,
          nwell_layer := nw, diffusion_layer := di, field_oxide_layer := fox,
          metal_layer := ml, sidewall_dielectric_layer := swl,
          simple_dielectric_layer := sdl,
          conformal_dielectric_layer := cdl }, ts10)

/-- Binary encoding of a ProcessStackInfo. -/
def binOfProcessStackInfo (psi : ProcessStackInfo) : List BTok :=
  binOfList binOfStackLayerInfo psi.layers

/-- Binary decoding of a ProcessStackInfo. -/
def processStackInfoOfBin (ts : List BTok) :
    Except String (ProcessStackInfo × List BTok) := do
  let (layers, ts1) ← repOfBin stackLayerInfoOfBin ts
  pure ({ layers := layers }, ts1)

/-- Binary encoding of a LayerResistance. -/
def binOfLayerResistance (lr : LayerResistance) : List BTok :=
  [.str lr.layer_name, .rat lr.resistance] ++
  binOfOpt (fun q => [.rat q]) lr.corner_adjustment_fraction

/-- Binary decoding of a LayerResistance. -/
def layerResistanceOfBin (ts : List BTok) :
    Except String (LayerResistance × List BTok) := do
  let (n, ts1) ← strOfBin ts
  let (r, ts2) ← ratOfBin ts1
  let (caf, ts3) ← optOfBin ratOfBin ts2
  pure ({ layer_name := n, resistance := r,
          corner_adjustment_fraction := caf }, ts3)

/-- Binary encoding of a ContactResistance. -/
def binOfContactResistance (cr : ContactResistance) : List BTok :=
  [.str cr.contact_name, .str cr.device_layer_name, .rat cr.resistance]

/-- Binary decoding of a ContactResistance. -/
def contactResistanceOfBin (ts : List BTok) :
    Except String (ContactResistance × List BTok) := do
  let (n, ts1) ← strOfBin ts
  let (d, ts2) ← strOfBin ts1
  let (r, ts3) ← ratOfBin ts2
  pure ({ contact_name := n, device_layer_name := d, resistance := r }, ts3)

/-- Binary encoding of a ViaResistance. -/
def binOfViaResistance (vr : ViaResistance) : List BTok :=
  [.str vr.via_name, .rat vr.resistance]

/-- Binary decoding of a ViaResistance. -/
def viaResistanceOfBin (ts : List BTok) :
    Except String (ViaResistance × List BTok) := do
  let (n, ts1) ← strOfBin ts
  let (r, ts2) ← ratOfBin ts1
  pure ({ via_name := n, resistance := r }, ts2)

/-- Binary encoding of a ResistanceInfo. -/
def binOfResistanceInfo (ri : ResistanceInfo) : List BTok :=
  binOfList binOfLayerResistance ri.layers ++
  binOfList binOfContactResistance ri.contacts ++
  binOfList binOfViaResistance ri.vias

/-- Binary decoding of a ResistanceInfo. -/
def resistanceInfoOfBin (ts : List BTok) :
    Except String (ResistanceInfo × List BTok) := do
  let (layers, ts1) ← repOfBin layerResistanceOfBin ts
  let (contacts, ts2) ← repOfBin contactResistanceOfBin ts1
  let (vias, ts3) ← repOfBin viaResistanceOfBin ts2
  pure ({ layers := layers, contacts := contacts, vias := vias }, ts3)

/-- Binary encoding of a SubstrateCapacitance. -/
def binOfSubstrateCapacitance (sc : SubstrateCapacitance) : List BTok :=
  [.str sc.layer_name, .rat sc.area_capacitance,
   .rat sc.perimeter_capacitance]

/-- Binary decoding of a SubstrateCapacitance. -/
def substrateCapacitanceOfBin (ts : List BTok) :
    Except String (SubstrateCapacitance × List BTok) := do
  let (n, ts1) ← strOfBin ts
  let (a, ts2) ← ratOfBin ts1
  let (p, ts3) ← ratOfBin ts2
  pure ({ layer_name := n, area_capacitance := a,
          perimeter_capacitance := p }, ts3)

/-- Binary encoding of an OverlapCapacitance. -/
def binOfOverlapCapacitance (oc : OverlapCapacitance) : List BTok :=
  [.str oc.top_layer_name, .str oc.bottom_layer_name, .rat oc.capacitance]

/-- Binary decoding of an OverlapCapacitance. -/
def overlapCapacitanceOfBin (ts : List BTok) :
    Except String (OverlapCapacitance × List BTok) := do
  let (t, ts1) ← strOfBin ts
  let (b, ts2) ← strOfBin ts1
  let (c, ts3) ← ratOfBin ts2
  pure ({ top_layer_name := t, bottom_layer_name := b,
          capacitance := c }, ts3)

/-- Binary encoding of a SidewallCapacitance. -/
def binOfSidewallCapacitance (swc : SidewallCapacitance) : List BTok :=
  [.str swc.layer_name, .rat swc.capacitance, .rat swc.offset]

/-- Binary decoding of a SidewallCapacitance. -/
def sidewallCapacitanceOfBin (ts : List BTok) :
    Except String (SidewallCapacitance × List BTok) := do
  let (n, ts1) ← strOfBin ts
  let (c, ts2) ← ratOfBin ts1
  let (o, ts3) ← ratOfBin ts2
  pure ({ layer_name := n, capacitance := c, offset := o }, ts3)

/-- Binary encoding of a SideOverlapCapacitance. -/
def binOfSideOverlapCapacitance (soc : SideOverlapCapacitance) : List BTok :=
  [.str soc.in_layer_name, .str soc.out_layer_name, .rat soc.capacitance]

/-- Binary decoding of a SideOverlapCapacitance. -/
def sideOverlapCapacitanceOfBin (ts : List BTok) :
    Except String (SideOverlapCapacitance × List BTok) := do
  let (i, ts1) ← strOfBin ts
  let (o, ts2) ← strOfBin ts1
  let (c, ts3) ← ratOfBin ts2
  pure ({ in_layer_name := i, out_layer_name := o, capacitance := c }, ts3)

/-- Binary encoding of a CapacitanceInfo. -/
def binOfCapacitanceInfo (ci : CapacitanceInfo) : List BTok :=
  binOfList binOfSubstrateCapacitance ci.substrates ++
  binOfList binOfOverlapCapacitance ci.overlaps ++
  binOfList binOfSidewallCapacitance ci.sidewalls ++
  binOfList binOfSideOverlapCapacitance ci.sideoverlaps

/-- Binary decoding of a CapacitanceInfo. -/
def capacitanceInfoOfBin (ts : List BTok) :
    Except String (CapacitanceInfo × List BTok) := do
  let (s, ts1) ← repOfBin substrateCapacitanceOfBin ts
  let (o, ts2) ← repOfBin overlapCapacitanceOfBin ts1
  let (sw, ts3) ← repOfBin sidewallCapacitanceOfBin ts2
  let (so, ts4) ← repOfBin sideOverlapCapacitanceOfBin ts3
  pure ({ substrates := s, overlaps := o, sidewalls := sw,
          sideoverlaps := so }, ts4)

/-- Binary encoding of a ProcessParasiticsInfo. -/
def binOfProcessParasiticsInfo (ex : ProcessParasiticsInfo) : List BTok :=
  [.rat ex.side_halo] ++
  binOfOpt binOfResistanceInfo ex.resistance ++
  binOfOpt binOfCapacitanceInfo ex.capacitance

/-- Binary decoding of a ProcessParasiticsInfo. -/
def processParasiticsInfoOfBin (ts : List BTok) :
    Except String (ProcessParasiticsInfo × List BTok) := do
  let (sh, ts1) ← ratOfBin ts
  let (r, ts2) ← optOfBin resistanceInfoOfBin ts1
  let (c, ts3) ← optOfBin capacitanceInfoOfBin ts2
  pure ({ side_halo := sh, resistance := r, capacitance := c }, ts3)

/-- Binary encoding of a Technology document. -/
def binOfTechnology (tech : Technology) : List BTok :=
  [.str tech.name] ++
  binOfList binOfLayerInfo tech.layers ++
  binOfList binOfPinLayerMapping tech.pin_layer_mappings ++
  binOfList binOfComputedLayerInfo tech.lvs_computed_layers ++
  binOfOpt binOfProcessStackInfo tech.process_stack ++
  binOfOpt binOfProcessParasiticsInfo tech.process_parasitics

/-- Binary decoding of a Technology document. -/
def technologyOfBin (ts : List BTok) :
    Except String (Technology × List BTok) := do
  let (name, ts1) ← strOfBin ts
  let (layers, ts2) ← repOfBin layerInfoOfBin ts1
  let (plm, ts3) ← repOfBin pinLayerMappingOfBin ts2
  let (lvs, ts4) ← repOfBin computedLayerInfoOfBin ts3
  let (ps, ts5) ← optOfBin processStackInfoOfBin ts4
  let (pp, ts6) ← optOfBin processParasiticsInfoOfBin ts5
  pure ({ name := name, layers := layers, pin_layer_mappings := plm,
          lvs_computed_layers := lvs, process_stack := ps,
          process_parasitics := pp }, ts6)

/-!
Round-trip lemmas for the binary codec: parsing the encoding of a value off
the front of a stream returns the value and the untouched tail.
-/

/-- Optional-record binary round-trip, given the payload round-trip. -/
theorem optOfBin_rt {α : Type} {enc : α → List BTok}
    {dec : List BTok → Except String (α × List BTok)}
    (h : ∀ x r, dec (enc x ++ r) = .ok (x, r)) (o : Option α)
    (r : List BTok) : optOfBin dec (binOfOpt enc o ++ r) = .ok (o, r) := by
  cases o <;> simp [binOfOpt, optOfBin, h, Except.bind, bind, pure,
    Except.pure]

/-- Fixed-count binary round-trip, given the element round-trip. -/
theorem listOfBin_rt {α : Type} {enc : α → List BTok}
    {dec : List BTok → Except String (α × List BTok)}
    (h : ∀ x r, dec (enc x ++ r) = .ok (x, r)) (xs : List α)
    (r : List BTok) :
    listOfBin dec xs.length
      ((xs.foldr (fun x acc => enc x ++ acc) []) ++ r) = .ok (xs, r) := by
  induction xs generalizing r with
  | nil => simp [listOfBin]
  | cons hd tl ih =>
      simp [listOfBin, List.append_assoc, h, ih, Except.bind, bind, pure,
        Except.pure]

/-- Repeated-record binary round-trip, given the element round-trip. -/
theorem repOfBin_rt {α : Type} {enc : α → List BTok}
    {dec : List BTok → Except String (α × List BTok)}
    (h : ∀ x r, dec (enc x ++ r) = .ok (x, r)) (xs : List α)
    (r : List BTok) : repOfBin dec (binOfList enc xs ++ r) = .ok (xs, r) := by
  simp [binOfList, repOfBin, natOfBin, listOfBin_rt h, Except.bind, bind,
    pure, Except.pure]

/-- Purpose binary round-trip. -/
theorem enumOfBin_purpose (p : Purpose) (r : List BTok) :
    enumOfBin purposeOfName (binOfEnum Purpose.protoName p ++ r) =
      .ok (p, r) := by
  cases p <;> rfl

/-- ComputedLayerKind binary round-trip. -/
theorem enumOfBin_kind (k : ComputedLayerKind) (r : List BTok) :
    enumOfBin kindOfName (binOfEnum ComputedLayerKind.protoName k ++ r) =
      .ok (k, r) := by
  cases k <;> rfl

/-- LayerType binary round-trip. -/
theorem enumOfBin_layerType (t : LayerType) (r : List BTok) :
    enumOfBin layerTypeOfName (binOfEnum LayerType.protoName t ++ r) =
      .ok (t, r) := by
  cases t <;> rfl

/-- GDSPair binary round-trip. -/
theorem gdsPairOfBin_binOf (p : GDSPair) (r : List BTok) :
    gdsPairOfBin (binOfGDSPair p ++ r) = .ok (p, r) := by
  simp [binOfGDSPair, gdsPairOfBin, natOfBin, Except.bind, bind, pure,
    Except.pure]

/-- LayerInfo binary round-trip. -/
theorem layerInfoOfBin_binOf (li : LayerInfo) (r : List BTok) :
    layerInfoOfBin (binOfLayerInfo li ++ r) = .ok (li, r) := by
  simp [binOfLayerInfo, layerInfoOfBin, strOfBin, natOfBin,
    List.append_assoc, enumOfBin_purpose, optOfBin_rt gdsPairOfBin_binOf,
    Except.bind, bind, pure, Except.pure]

/-- PinLayerMapping binary round-trip. -/
theorem pinLayerMappingOfBin_binOf (m : PinLayerMapping) (r : List BTok) :
    pinLayerMappingOfBin (binOfPinLayerMapping m ++ r) = .ok (m, r) := by
  simp [binOfPinLayerMapping, pinLayerMappingOfBin, strOfBin, natOfBin,
    Except.bind, bind, pure, Except.pure]

/-- ComputedLayerInfo binary round-trip. -/
theorem computedLayerInfoOfBin_binOf (cl : ComputedLayerInfo)
    (r : List BTok) :
    computedLayerInfoOfBin (binOfComputedLayerInfo cl ++ r) = .ok (cl, r) := by
  simp [binOfComputedLayerInfo, computedLayerInfoOfBin, strOfBin,
    List.append_assoc, enumOfBin_kind, optOfBin_rt layerInfoOfBin_binOf,
    Except.bind, bind, pure, Except.pure]

/-- Contact binary round-trip. -/
theorem contactOfBin_binOf (co : Contact) (r : List BTok) :
    contactOfBin (binOfContact co ++ r) = .ok (co, r) := by
  simp [binOfContact, contactOfBin, strOfBin, ratOfBin, Except.bind, bind,
    pure, Except.pure]

/-- SubstrateLayer binary round-trip. -/
theorem substrateLayerOfBin_binOf (sl : SubstrateLayer) (r : List BTok) :
    substrateLayerOfBin (binOfSubstrateLayer sl ++ r) = .ok (sl, r) := by
  simp [binOfSubstrateLayer, substrateLayerOfBin, strOfBin, ratOfBin,
    Except.bind, bind, pure, Except.pure]

/-- NWellLayer binary round-trip. -/
theorem nwellLayerOfBin_binOf (wl : NWellLayer) (r : List BTok) :
    nwellLayerOfBin (binOfNWellLayer wl ++ r) = .ok (wl, r) := by
  simp [binOfNWellLayer, nwellLayerOfBin, strOfBin, ratOfBin,
    List.append_assoc, optOfBin_rt contactOfBin_binOf, Except.bind, bind,
    pure, Except.pure]

/-- DiffusionLayer binary round-trip. -/
theorem diffusionLayerOfBin_binOf (dl : DiffusionLayer) (r : List BTok) :
    diffusionLayerOfBin (binOfDiffusionLayer dl ++ r) = .ok (dl, r) := by
  simp [binOfDiffusionLayer, diffusionLayerOfBin, strOfBin, ratOfBin,
    List.append_assoc, optOfBin_rt contactOfBin_binOf, Except.bind, bind,
    pure, Except.pure]

/-- FieldOxideLayer binary round-trip. -/
theorem fieldOxideLayerOfBin_binOf (fl : FieldOxideLayer) (r : List BTok) :
    fieldOxideLayerOfBin (binOfFieldOxideLayer fl ++ r) = .ok (fl, r) := by
  simp [binOfFieldOxideLayer, fieldOxideLayerOfBin, ratOfBin, Except.bind,
    bind, pure, Except.pure]

/-- MetalLayer binary round-trip. -/
theorem metalLayerOfBin_binOf (ml : MetalLayer) (r : List BTok) :
    metalLayerOfBin (binOfMetalLayer ml ++ r) = .ok (ml, r) := by
  simp [binOfMetalLayer, metalLayerOfBin, strOfBin, ratOfBin,
    List.append_assoc, optOfBin_rt contactOfBin_binOf, Except.bind, bind,
    pure, Except.pure]

/-- SidewallDielectricLayer binary round-trip. -/
theorem sidewallDielectricLayerOfBin_binOf (swl : SidewallDielectricLayer)
    (r : List BTok) :
    sidewallDielectricLayerOfBin (binOfSidewallDielectricLayer swl ++ r) =
      .ok (swl, r) := by
  simp [binOfSidewallDielectricLayer, sidewallDielectricLayerOfBin, strOfBin,
    ratOfBin, Except.bind, bind, pure, Except.pure]

/-- SimpleDielectricLayer binary round-trip. -/
theorem simpleDielectricLayerOfBin_binOf (sdl : SimpleDielectricLayer)
    (r : List BTok) :
    simpleDielectricLayerOfBin (binOfSimpleDielectricLayer sdl ++ r) =
      .ok (sdl, r) := by
  simp [binOfSimpleDielectricLayer, simpleDielectricLayerOfBin, strOfBin,
    ratOfBin, Except.bind, bind, pure, Except.pure]

/-- ConformalDielectricLayer binary round-trip. -/
theorem conformalDielectricLayerOfBin_binOf (cl : ConformalDielectricLayer)
    (r : List BTok) :
    conformalDielectricLayerOfBin (binOfConformalDielectricLayer cl ++ r) =
      .ok (cl, r) := by
  simp [binOfConformalDielectricLayer, conformalDielectricLayerOfBin,
    strOfBin, ratOfBin, Except.bind, bind, pure, Except.pure]

/-- StackLayerInfo binary round-trip. -/
theorem stackLayerInfoOfBin_binOf (li : StackLayerInfo) (r : List BTok) :
    stackLayerInfoOfBin (binOfStackLayerInfo li ++ r) = .ok (li, r) := by
  simp [binOfStackLayerInfo, stackLayerInfoOfBin, strOfBin,
    List.append_assoc, enumOfBin_layerType,
    optOfBin_rt substrateLayerOfBin_binOf,
    optOfBin_rt nwellLayerOfBin_binOf,
    optOfBin_rt diffusionLayerOfBin_binOf,
    optOfBin_rt fieldOxideLayerOfBin_binOf,
    optOfBin_rt metalLayerOfBin_binOf,
    optOfBin_rt sidewallDielectricLayerOfBin_binOf,
    optOfBin_rt simpleDielectricLayerOfBin_binOf,
    optOfBin_rt conformalDielectricLayerOfBin_binOf,
    Except.bind, bind, pure, Except.pure]

/-- ProcessStackInfo binary round-trip. -/
theorem processStackInfoOfBin_binOf (psi : ProcessStackInfo)
    (r : List BTok) :
    processStackInfoOfBin (binOfProcessStackInfo psi ++ r) = .ok (psi, r) := by
  simp [binOfProcessStackInfo, processStackInfoOfBin,
    repOfBin_rt stackLayerInfoOfBin_binOf, Except.bind, bind, pure,
    Except.pure]

/-- LayerResistance binary round-trip. -/
theorem layerResistanceOfBin_binOf (lr : LayerResistance) (r : List BTok) :
    layerResistanceOfBin (binOfLayerResistance lr ++ r) = .ok (lr, r) := by
  have hq : ∀ (q : ℚ) (r : List BTok), ratOfBin ([.rat q] ++ r) = .ok (q, r) :=
    fun _ _ => rfl
  simp [binOfLayerResistance, layerResistanceOfBin, strOfBin, ratOfBin,
    List.append_assoc, optOfBin_rt hq, Except.bind, bind, pure, Except.pure]

/-- ContactResistance binary round-trip. -/
theorem contactResistanceOfBin_binOf (cr : ContactResistance)
    (r : List BTok) :
    contactResistanceOfBin (binOfContactResistance cr ++ r) = .ok (cr, r) := by
  simp [binOfContactResistance, contactResistanceOfBin, strOfBin, ratOfBin,
    Except.bind, bind, pure, Except.pure]

/-- ViaResistance binary round-trip. -/
theorem viaResistanceOfBin_binOf (vr : ViaResistance) (r : List BTok) :
    viaResistanceOfBin (binOfViaResistance vr ++ r) = .ok (vr, r) := by
  simp [binOfViaResistance, viaResistanceOfBin, strOfBin, ratOfBin,
    Except.bind, bind, pure, Except.pure]

/-- ResistanceInfo binary round-trip. -/
theorem resistanceInfoOfBin_binOf (ri : ResistanceInfo) (r : List BTok) :
    resistanceInfoOfBin (binOfResistanceInfo ri ++ r) = .ok (ri, r) := by
  simp [binOfResistanceInfo, resistanceInfoOfBin, List.append_assoc,
    repOfBin_rt layerResistanceOfBin_binOf,
    repOfBin_rt contactResistanceOfBin_binOf,
    repOfBin_rt viaResistanceOfBin_binOf,
    Except.bind, bind, pure, Except.pure]

/-- SubstrateCapacitance binary round-trip. -/
theorem substrateCapacitanceOfBin_binOf (sc : SubstrateCapacitance)
    (r : List BTok) :
    substrateCapacitanceOfBin (binOfSubstrateCapacitance sc ++ r) =
      .ok (sc, r) := by
  simp [binOfSubstrateCapacitance, substrateCapacitanceOfBin, strOfBin,
    ratOfBin, Except.bind, bind, pure, Except.pure]

/-- OverlapCapacitance binary round-trip. -/
theorem overlapCapacitanceOfBin_binOf (oc : OverlapCapacitance)
    (r : List BTok) :
    overlapCapacitanceOfBin (binOfOverlapCapacitance oc ++ r) =
      .ok (oc, r) := by
  simp [binOfOverlapCapacitance, overlapCapacitanceOfBin, strOfBin, ratOfBin,
    Except.bind, bind, pure, Except.pure]

/-- SidewallCapacitance binary round-trip. -/
theorem sidewallCapacitanceOfBin_binOf (swc : SidewallCapacitance)
    (r : List BTok) :
    sidewallCapacitanceOfBin (binOfSidewallCapacitance swc ++ r) =
      .ok (swc, r) := by
  simp [binOfSidewallCapacitance, sidewallCapacitanceOfBin, strOfBin,
    ratOfBin, Except.bind, bind, pure, Except.pure]

/-- SideOverlapCapacitance binary round-trip. -/
theorem sideOverlapCapacitanceOfBin_binOf (soc : SideOverlapCapacitance)
    (r : List BTok) :
    sideOverlapCapacitanceOfBin (binOfSideOverlapCapacitance soc ++ r) =
      .ok (soc, r) := by
  simp [binOfSideOverlapCapacitance, sideOverlapCapacitanceOfBin, strOfBin,
    ratOfBin, Except.bind, bind, pure, Except.pure]

/-- CapacitanceInfo binary round-trip. -/
theorem capacitanceInfoOfBin_binOf (ci : CapacitanceInfo) (r : List BTok) :
    capacitanceInfoOfBin (binOfCapacitanceInfo ci ++ r) = .ok (ci, r) := by
  simp [binOfCapacitanceInfo, capacitanceInfoOfBin, List.append_assoc,
    repOfBin_rt substrateCapacitanceOfBin_binOf,
    repOfBin_rt overlapCapacitanceOfBin_binOf,
    repOfBin_rt sidewallCapacitanceOfBin_binOf,
    repOfBin_rt sideOverlapCapacitanceOfBin_binOf,
    Except.bind, bind, pure, Except.pure]

/-- ProcessParasiticsInfo binary round-trip. -/
theorem processParasiticsInfoOfBin_binOf (ex : ProcessParasiticsInfo)
    (r : List BTok) :
    processParasiticsInfoOfBin (binOfProcessParasiticsInfo ex ++ r) =
      .ok (ex, r) := by
  simp [binOfProcessParasiticsInfo, processParasiticsInfoOfBin, ratOfBin,
    List.append_assoc, optOfBin_rt resistanceInfoOfBin_binOf,
    optOfBin_rt capacitanceInfoOfBin_binOf, Except.bind, bind, pure,
    Except.pure]

/-- Technology binary round-trip. -/
theorem technologyOfBin_binOf (tech : Technology) (r : List BTok) :
    technologyOfBin (binOfTechnology tech ++ r) = .ok (tech, r) := by
  simp [binOfTechnology, technologyOfBin, strOfBin, List.append_assoc,
    repOfBin_rt layerInfoOfBin_binOf,
    repOfBin_rt pinLayerMappingOfBin_binOf,
    repOfBin_rt computedLayerInfoOfBin_binOf,
    optOfBin_rt processStackInfoOfBin_binOf,
    optOfBin_rt processParasiticsInfoOfBin_binOf,
    Except.bind, bind, pure, Except.pure]

/-!
Textual codec.  Modelled from the spec: the pretty-text encoding is a
schema-annotated, field-name-keyed textual form.  It is modelled as an
ordered list of named fields per message, where a repeated field appears as
one same-named entry per element (in element order), an absent optional
sub-message produces no entry, and enum values are bare identifiers.  The
file payload carries the two header comment lines that protobuf.cpp write
prepends (the proto-file and proto-message names); the parser skips
comments, so decoding reads only the body.  Indentation and lexing of the
textual form are below the modelled layer.
-/

/-- One textual field value: a string, a number, a bare enum identifier or a
nested message block. -/
inductive TVal where
  | str (s : String)
  | num (q : ℚ)
  | enum (e : String)
  | msg (fields : List (String × TVal))

/-- First value carried by a key, for singular fields. -/
def firstKey : List (String × TVal) → String → Option TVal
  | [], _ => none
  | (k', v) :: rest, k => if k' = k then some v else firstKey rest k

/-- Every value carried by a key in order, for repeated fields. -/
def collectKey : List (String × TVal) → String → List TVal
  | [], _ => []
  | (k', v) :: rest, k =>
      if k' = k then v :: collectKey rest k else collectKey rest k

/-- Emit an optional sub-message field: absent values produce no entry. -/
def optFieldT (k : String) : Option TVal → List (String × TVal)
  | none => []
  | some v => [(k, v)]

/-- Emit a repeated field: one same-named entry per element. -/
def repFieldT (k : String) (vs : List TVal) : List (String × TVal) :=
  vs.map (fun v => (k, v))

/-- Decode a possibly-absent textual string value; absence is the empty
string. -/
def decStrT : Option TVal → Except String String
  | none => .ok ""
  | some (.str s) => .ok s
  | some _ => .error "expected string"

/-- Decode a possibly-absent textual number value; absence is zero. -/
def decNumT : Option TVal → Except String ℚ
  | none => .ok 0
  | some (.num q) => .ok q
  | some _ => .error "expected number"

/-- Decode a possibly-absent textual nonnegative-integer value; absence is
zero. -/
def decNatT : Option TVal → Except String Nat
  | none => .ok 0
  | some (.num q) =>
      if q.den = 1 ∧ 0 ≤ q.num then .ok q.num.toNat
      else .error "expected nonnegative integer"
  | some _ => .error "expected number"

/-- Decode a textual number value that must be present. -/
def decNumTV : TVal → Except String ℚ
  | .num q => .ok q
  | _ => .error "expected number"

/-- Decode a possibly-absent textual enum value given the enum name table;
absence is the zero value of the enum. -/
def decEnumT (ofName : String → Option α) (dflt : α) :
    Option TVal → Except String α
  | none => .ok dflt
  | some (.enum e) =>
      match ofName e with
      | some v => .ok v
      | none => .error "unknown enum value"
  | some _ => .error "expected enum identifier"

/-- Textual fields of a GDSPair. -/
def tfieldsOfGDSPair (p : GDSPair) : List (String × TVal) :=
  [("layer", .num p.layer), ("datatype", .num p.datatype)]

/-- Textual decoding of a GDSPair block. -/
def gdsPairOfT (v : TVal) : Except String GDSPair := do
  match v with
  | .msg fs => do
      let l ← decNatT (firstKey fs "layer")
      let d ← decNatT (firstKey fs "datatype")
      pure { layer := l, datatype := d }
  | _ => .error "expected message block"

/-- Textual fields of a LayerInfo. -/
def tfieldsOfLayerInfo (li : LayerInfo) : List (String × TVal) :=
  [("name", .str li.name), ("description", .str li.description),
   ("purpose", .enum li.purpose.protoName),
   ("gds_layer", .num li.gds_layer), ("gds_datatype", .num li.gds_datatype)] ++
  optFieldT "drw_gds_pair"
    (li.drw_gds_pair.map (fun p => .msg (tfieldsOfGDSPair p))) ++
  optFieldT "pin_gds_pair"
    (li.pin_gds_pair.map (fun p => .msg (tfieldsOfGDSPair p))) ++
  optFieldT "label_gds_pair"
    (li.label_gds_pair.map (fun p => .msg (tfieldsOfGDSPair p)))

/-- Textual decoding of a LayerInfo block. -/
def layerInfoOfT (v : TVal) : Except String LayerInfo := do
  match v with
  | .msg fs => do
      let name ← decStrT (firstKey fs "name")
      let description ← decStrT (firstKey fs "description")
      let purpose ←
        decEnumT purposeOfName .PURPOSE_UNSPECIFIED (firstKey fs "purpose")
      let gl ← decNatT (firstKey fs "gds_layer")
      let gd ← decNatT (firstKey fs "gds_datatype")
      let drw ← decOptVal gdsPairOfT (firstKey fs "drw_gds_pair")
      let pin ← decOptVal gdsPairOfT (firstKey fs "pin_gds_pair")
      let label ← decOptVal gdsPairOfT (firstKey fs "label_gds_pair")
      pure { name := name, description := description, purpose := purpose,
             gds_layer := gl, gds_datatype := gd, drw_gds_pair := drw,
             pin_gds_pair := pin, label_gds_pair := label }
  | _ => .error "expected message block"

/-- Textual fields of a PinLayerMapping. -/
def tfieldsOfPinLayerMapping (m : PinLayerMapping) : List (String × TVal) :=
  [("description", .str m.description),
   ("pin_gds_layer", .num m.pin_gds_layer),
   ("pin_gds_datatype", .num m.pin_gds_datatype),
   ("drw_gds_layer", .num m.drw_gds_layer),
   ("drw_gds_datatype", .num m.drw_gds_datatype)]

/-- Textual decoding of a PinLayerMapping block. -/
def pinLayerMappingOfT (v : TVal) : Except String PinLayerMapping := do
  match v with
  | .msg fs => do
      let d ← decStrT (firstKey fs "description")
      let pl ← decNatT (firstKey fs "pin_gds_layer")
      let pd ← decNatT (firstKey fs "pin_gds_datatype")
      let dl ← decNatT (firstKey fs "drw_gds_layer")
      let dd ← decNatT (firstKey fs "drw_gds_datatype")
      pure { description := d, pin_gds_layer := pl, pin_gds_datatype := pd,
             drw_gds_layer := dl, drw_gds_datatype := dd }
  | _ => .error "expected message block"

/-- Textual fields of a ComputedLayerInfo. -/
def tfieldsOfComputedLayerInfo (cl : ComputedLayerInfo) :
    List (String × TVal) :=
  [("kind", .enum cl.kind.protoName),
   ("original_layer_name", .str cl.original_layer_name)] ++
  optFieldT "layer_info"
    (cl.layer_info.map (fun li => .msg (tfieldsOfLayerInfo li)))

/-- Textual decoding of a ComputedLayerInfo block. -/
def computedLayerInfoOfT (v : TVal) : Except String ComputedLayerInfo := do
  match v with
  | .msg fs => do
      let kind ← decEnumT kindOfName .KIND_UNSPECIFIED (firstKey fs "kind")
      let oln ← decStrT (firstKey fs "original_layer_name")
      let li ← decOptVal layerInfoOfT (firstKey fs "layer_info")
      pure { kind := kind, original_layer_name := oln, layer_info := li }
  | _ => .error "expected message block"

/-- Textual fields of a Contact. -/
def tfieldsOfContact (co : Contact) : List (String × TVal) :=
  [("name", .str co.name), ("layer_below", .str co.layer_below),
   ("metal_above", .str co.metal_above), ("thickness", .num co.thickness),
   ("width", .num co.width), ("spacing", .num co.spacing),
   ("border", .num co.border)]

/-- Textual decoding of a Contact block. -/
def contactOfT (v : TVal) : Except String Contact := do
  match v with
  | .msg fs => do
      let n ← decStrT (firstKey fs "name")
      let lb ← decStrT (firstKey fs "layer_below")
      let ma ← decStrT (firstKey fs "metal_above")
      let th ← decNumT (firstKey fs "thickness")
      let w ← decNumT (firstKey fs "width")
      let sp ← decNumT (firstKey fs "spacing")
      let b ← decNumT (firstKey fs "border")
      pure { name := n, layer_below := lb, metal_above := ma,
             thickness := th, width := w, spacing := sp, border := b }
  | _ => .error "expected message block"

/-- Textual fields of a SubstrateLayer. -/
def tfieldsOfSubstrateLayer (sl : SubstrateLayer) : List (String × TVal) :=
  [("height", .num sl.height), ("thickness", .num sl.thickness),
   ("reference", .str sl.reference)]

/-- Textual decoding of a SubstrateLayer block. -/
def substrateLayerOfT (v : TVal) : Except String SubstrateLayer := do
  match v with
  | .msg fs => do
      let h ← decNumT (firstKey fs "height")
      let th ← decNumT (firstKey fs "thickness")
      let r ← decStrT (firstKey fs "reference")
      pure { height := h, thickness := th, reference := r }
  | _ => .error "expected message block"

/-- Textual fields of an NWellLayer. -/
def tfieldsOfNWellLayer (wl : NWellLayer) : List (String × TVal) :=
  [("height", .num wl.height), ("reference", .str wl.reference)] ++
  optFieldT "contact_above"
    (wl.contact_above.map (fun co => .msg (tfieldsOfContact co)))

/-- Textual decoding of an NWellLayer block. -/
def nwellLayerOfT (v : TVal) : Except String NWellLayer := do
  match v with
  | .msg fs => do
      let h ← decNumT (firstKey fs "height")
      let r ← decStrT (firstKey fs "reference")
      let co ← decOptVal contactOfT (firstKey fs "contact_above")
      pure { height := h, reference := r, contact_above := co }
  | _ => .error "expected message block"

/-- Textual fields of a DiffusionLayer. -/
def tfieldsOfDiffusionLayer (dl : DiffusionLayer) : List (String × TVal) :=
  [("height", .num dl.height), ("reference", .str dl.reference)] ++
  optFieldT "contact_above"
    (dl.contact_above.map (fun co => .msg (tfieldsOfContact co)))

/-- Textual decoding of a DiffusionLayer block. -/
def diffusionLayerOfT (v : TVal) : Except String DiffusionLayer := do
  match v with
  | .msg fs => do
      let h ← decNumT (firstKey fs "height")
      let r ← decStrT (firstKey fs "reference")
      let co ← decOptVal contactOfT (firstKey fs "contact_above")
      pure { height := h, reference := r, contact_above := co }
  | _ => .error "expected message block"

/-- Textual fields of a FieldOxideLayer. -/
def tfieldsOfFieldOxideLayer (fl : FieldOxideLayer) : List (String × TVal) :=
  [("dielectric_k", .num fl.dielectric_k)]

/-- Textual decoding of a FieldOxideLayer block. -/
def fieldOxideLayerOfT (v : TVal) : Except String FieldOxideLayer := do
  match v with
  | .msg fs => do
      let k ← decNumT (firstKey fs "dielectric_k")
      pure { dielectric_k := k }
  | _ => .error "expected message block"

/-- Textual fields of a MetalLayer. -/
def tfieldsOfMetalLayer (ml : MetalLayer) : List (String × TVal) :=
  [("height", .num ml.height), ("thickness", .num ml.thickness),
   ("reference_below", .str ml.reference_below),
   ("reference_above", .str ml.reference_above)] ++
  optFieldT "contact_above"
    (ml.contact_above.map (fun co => .msg (tfieldsOfContact co)))

/-- Textual decoding of a MetalLayer block. -/
def metalLayerOfT (v : TVal) : Except String MetalLayer := do
  match v with
  | .msg fs => do
      let h ← decNumT (firstKey fs "height")
      let th ← decNumT (firstKey fs "thickness")
      let rb ← decStrT (firstKey fs "reference_below")
      let ra ← decStrT (firstKey fs "reference_above")
      let co ← decOptVal contactOfT (firstKey fs "contact_above")
      pure { height := h, thickness := th, reference_below := rb,
             reference_above := ra, contact_above := co }
  | _ => .error "expected message block"

/-- Textual fields of a SidewallDielectricLayer. -/
def tfieldsOfSidewallDielectricLayer (swl : SidewallDielectricLayer) :
    List (String × TVal) :=
  [("dielectric_k", .num swl.dielectric_k),
   ("height_above_metal", .num swl.height_above_metal),
   ("width_outside_sidewall", .num swl.width_outside_sidewall),
   ("reference", .str swl.reference)]

/-- Textual decoding of a SidewallDielectricLayer block. -/
def sidewallDielectricLayerOfT (v : TVal) :
    Except String SidewallDielectricLayer := do
  match v with
  | .msg fs => do
      let k ← decNumT (firstKey fs "dielectric_k")
      let ham ← decNumT (firstKey fs "height_above_metal")
      let wos ← decNumT (firstKey fs "width_outside_sidewall")
      let r ← decStrT (firstKey fs "reference")
      pure { dielectric_k := k, height_above_metal := ham,
             width_outside_sidewall := wos, reference := r }
  | _ => .error "expected message block"

/-- Textual fields of a SimpleDielectricLayer. -/
def tfieldsOfSimpleDielectricLayer (sdl : SimpleDielectricLayer) :
    List (String × TVal) :=
  [("dielectric_k", .num sdl.dielectric_k), ("reference", .str sdl.reference)]

/-- Textual decoding of a SimpleDielectricLayer block. -/
def simpleDielectricLayerOfT (v : TVal) :
    Except String SimpleDielectricLayer := do
  match v with
  | .msg fs => do
      let k ← decNumT (firstKey fs "dielectric_k")
      let r ← decStrT (firstKey fs "reference")
      pure { dielectric_k := k, reference := r }
  | _ => .error "expected message block"

/-- Textual fields of a ConformalDielectricLayer. -/
def tfieldsOfConformalDielectricLayer (cl : ConformalDielectricLayer) :
    List (String × TVal) :=
  [("dielectric_k", .num cl.dielectric_k),
   ("thickness_over_metal", .num cl.thickness_over_metal),
   ("thickness_where_no_metal", .num cl.thickness_where_no_metal),
   ("thickness_sidewall", .num cl.thickness_sidewall),
   ("reference", .str cl.reference)]

/-- Textual decoding of a ConformalDielectricLayer block. -/
def conformalDielectricLayerOfT (v : TVal) :
    Except String ConformalDielectricLayer := do
  match v with
  | .msg fs => do
      let k ← decNumT (firstKey fs "dielectric_k")
      let tom ← decNumT (firstKey fs "thickness_over_metal")
      let twnm ← decNumT (firstKey fs "thickness_where_no_metal")
      let tsw ← decNumT (firstKey fs "thickness_sidewall")
      let r ← decStrT (firstKey fs "reference")
      pure { dielectric_k := k, thickness_over_metal := tom,
             thickness_where_no_metal := twnm, thickness_sidewall := tsw,
             reference := r }
  | _ => .error "expected message block"

/-- Textual fields of a StackLayerInfo. -/
def tfieldsOfStackLayerInfo (li : StackLayerInfo) : List (String × TVal) :=
  [("name", .str li.name), ("layer_type", .enum li.layer_type.protoName)] ++
  optFieldT "substrate_layer"
    (li.substrate_layer.map (fun x => .msg (tfieldsOfSubstrateLayer x))) ++
  optFieldT "nwell_layer"
    (li.nwell_layer.map (fun x => .msg (tfieldsOfNWellLayer x))) ++
  optFieldT "diffusion_layer"
    (li.diffusion_layer.map (fun x => .msg (tfieldsOfDiffusionLayer x))) ++
  optFieldT "field_oxide_layer"
    (li.field_oxide_layer.map (fun x => .msg (tfieldsOfFieldOxideLayer x))) ++
  optFieldT "metal_layer"
    (li.metal_layer.map (fun x => .msg (tfieldsOfMetalLayer x))) ++
  optFieldT "sidewall_dielectric_layer"
    (li.sidewall_dielectric_layer.map
      (fun x => .msg (tfieldsOfSidewallDielectricLayer x))) ++
  optFieldT "simple_dielectric_layer"
    (li.simple_dielectric_layer.map
      (fun x => .msg (tfieldsOfSimpleDielectricLayer x))) ++
  optFieldT "conformal_dielectric_layer"
    (li.conformal_dielectric_layer.map
      (fun x => .msg (tfieldsOfConformalDielectricLayer x)))

/-- Textual decoding of a StackLayerInfo block. -/
def stackLayerInfoOfT (v : TVal) : Except String StackLayerInfo := do
  match v with
  | .msg fs => do
      let name ← decStrT (firstKey fs "name")
      let lt ← decEnumT layerTypeOfName .LAYER_TYPE_UNSPECIFIED
        (firstKey fs "layer_type")
      let sub ← decOptVal substrateLayerOfT (firstKey fs "substrate_layer")
      let nw ← decOptVal nwellLayerOfT (firstKey fs "nwell_layer")
      let di ← decOptVal diffusionLayerOfT (firstKey fs "diffusion_layer")
      let fox ← decOptVal fieldOxideLayerOfT (firstKey fs "field_oxide_layer")
      let ml ← decOptVal metalLayerOfT (firstKey fs "metal_layer")
      let swl ← decOptVal sidewallDielectricLayerOfT
        (firstKey fs "sidewall_dielectric_layer")
      let sdl ← decOptVal simpleDielectricLayerOfT
        (firstKey fs "simple_dielectric_layer")
      let cdl ← decOptVal conformalDielectricLayerOfT
        (firstKey fs "conformal_dielectric_layer")
      pure { name := name, layer_type := lt, substrate_layer := sub,
             nwell_layer := nw, diffusion_layer := di,
             field_oxide_layer := fox, metal_layer := ml,
             sidewall_dielectric_layer := swl,
             simple_dielectric_layer := sdl,
             conformal_dielectric_layer := cdl }
  | _ => .error "expected message block"

/-- Textual fields of a ProcessStackInfo. -/
def tfieldsOfProcessStackInfo (psi : ProcessStackInfo) :
    List (String × TVal) :=
  repFieldT "layers"
    (psi.layers.map (fun li => .msg (tfieldsOfStackLayerInfo li)))

/-- Textual decoding of a ProcessStackInfo block. -/
def processStackInfoOfT (v : TVal) : Except String ProcessStackInfo := do
  match v with
  | .msg fs => do
      let layers ← mapDec stackLayerInfoOfT (collectKey fs "layers")
      pure { layers := layers }
  | _ => .error "expected message block"

/-- Textual fields of a LayerResistance. -/
def tfieldsOfLayerResistance (lr : LayerResistance) : List (String × TVal) :=
  [("layer_name", .str lr.layer_name), ("resistance", .num lr.resistance)] ++
  optFieldT "corner_adjustment_fraction"
    (lr.corner_adjustment_fraction.map TVal.num)

/-- Textual decoding of a LayerResistance block. -/
def layerResistanceOfT (v : TVal) : Except String LayerResistance := do
  match v with
  | .msg fs => do
      let n ← decStrT (firstKey fs "layer_name")
      let r ← decNumT (firstKey fs "resistance")
      let caf ← decOptVal decNumTV (firstKey fs "corner_adjustment_fraction")
      pure { layer_name := n, resistance := r,
             corner_adjustment_fraction := caf }
  | _ => .error "expected message block"

/-- Textual fields of a ContactResistance. -/
def tfieldsOfContactResistance (cr : ContactResistance) :
    List (String × TVal) :=
  [("contact_name", .str cr.contact_name),
   ("device_layer_name", .str cr.device_layer_name),
   ("resistance", .num cr.resistance)]

/-- Textual decoding of a ContactResistance block. -/
def contactResistanceOfT (v : TVal) : Except String ContactResistance := do
  match v with
  | .msg fs => do
      let n ← decStrT (firstKey fs "contact_name")
      let d ← decStrT (firstKey fs "device_layer_name")
      let r ← decNumT (firstKey fs "resistance")
      pure { contact_name := n, device_layer_name := d, resistance := r }
  | _ => .error "expected message block"

/-- Textual fields of a ViaResistance. -/
def tfieldsOfViaResistance (vr : ViaResistance) : List (String × TVal) :=
  [("via_name", .str vr.via_name), ("resistance", .num vr.resistance)]

/-- Textual decoding of a ViaResistance block. -/
def viaResistanceOfT (v : TVal) : Except String ViaResistance := do
  match v with
  | .msg fs => do
      let n ← decStrT (firstKey fs "via_name")
      let r ← decNumT (firstKey fs "resistance")
      pure { via_name := n, resistance := r }
  | _ => .error "expected message block"

/-- Textual fields of a ResistanceInfo. -/
def tfieldsOfResistanceInfo (ri : ResistanceInfo) : List (String × TVal) :=
  repFieldT "layers"
    (ri.layers.map (fun x => .msg (tfieldsOfLayerResistance x))) ++
  repFieldT "contacts"
    (ri.contacts.map (fun x => .msg (tfieldsOfContactResistance x))) ++
  repFieldT "vias"
    (ri.vias.map (fun x => .msg (tfieldsOfViaResistance x)))

/-- Textual decoding of a ResistanceInfo block. -/
def resistanceInfoOfT (v : TVal) : Except String ResistanceInfo := do
  match v with
  | .msg fs => do
      let layers ← mapDec layerResistanceOfT (collectKey fs "layers")
      let contacts ← mapDec contactResistanceOfT (collectKey fs "contacts")
      let vias ← mapDec viaResistanceOfT (collectKey fs "vias")
      pure { layers := layers, contacts := contacts, vias := vias }
  | _ => .error "expected message block"

/-- Textual fields of a SubstrateCapacitance. -/
def tfieldsOfSubstrateCapacitance (sc : SubstrateCapacitance) :
    List (String × TVal) :=
  [("layer_name", .str sc.layer_name),
   ("area_capacitance", .num sc.area_capacitance),
   ("perimeter_capacitance", .num sc.perimeter_capacitance)]

/-- Textual decoding of a SubstrateCapacitance block. -/
def substrateCapacitanceOfT (v : TVal) :
    Except String SubstrateCapacitance := do
  match v with
  | .msg fs => do
      let n ← decStrT (firstKey fs "layer_name")
      let a ← decNumT (firstKey fs "area_capacitance")
      let p ← decNumT (firstKey fs "perimeter_capacitance")
      pure { layer_name := n, area_capacitance := a,
             perimeter_capacitance := p }
  | _ => .error "expected message block"

/-- Textual fields of an OverlapCapacitance. -/
def tfieldsOfOverlapCapacitance (oc : OverlapCapacitance) :
    List (String × TVal) :=
  [("top_layer_name", .str oc.top_layer_name),
   ("bottom_layer_name", .str oc.bottom_layer_name),
   ("capacitance", .num oc.capacitance)]

/-- Textual decoding of an OverlapCapacitance block. -/
def overlapCapacitanceOfT (v : TVal) : Except String OverlapCapacitance := do
  match v with
  | .msg fs => do
      let t ← decStrT (firstKey fs "top_layer_name")
      let b ← decStrT (firstKey fs "bottom_layer_name")
      let c ← decNumT (firstKey fs "capacitance")
      pure { top_layer_name := t, bottom_layer_name := b, capacitance := c }
  | _ => .error "expected message block"

/-- Textual fields of a SidewallCapacitance. -/
def tfieldsOfSidewallCapacitance (swc : SidewallCapacitance) :
    List (String × TVal) :=
  [("layer_name", .str swc.layer_name),
   ("capacitance", .num swc.capacitance), ("offset", .num swc.offset)]

/-- Textual decoding of a SidewallCapacitance block. -/
def sidewallCapacitanceOfT (v : TVal) :
    Except String SidewallCapacitance := do
  match v with
  | .msg fs => do
      let n ← decStrT (firstKey fs "layer_name")
      let c ← decNumT (firstKey fs "capacitance")
      let o ← decNumT (firstKey fs "offset")
      pure { layer_name := n, capacitance := c, offset := o }
  | _ => .error "expected message block"

/-- Textual fields of a SideOverlapCapacitance. -/
def tfieldsOfSideOverlapCapacitance (soc : SideOverlapCapacitance) :
    List (String × TVal) :=
  [("in_layer_name", .str soc.in_layer_name),
   ("out_layer_name", .str soc.out_layer_name),
   ("capacitance", .num soc.capacitance)]

/-- Textual decoding of a SideOverlapCapacitance block. -/
def sideOverlapCapacitanceOfT (v : TVal) :
    Except String SideOverlapCapacitance := do
  match v with
  | .msg fs => do
      let i ← decStrT (firstKey fs "in_layer_name")
      let o ← decStrT (firstKey fs "out_layer_name")
      let c ← decNumT (firstKey fs "capacitance")
      pure { in_layer_name := i, out_layer_name := o, capacitance := c }
  | _ => .error "expected message block"

/-- Textual fields of a CapacitanceInfo. -/
def tfieldsOfCapacitanceInfo (ci : CapacitanceInfo) :
    List (String × TVal) :=
  repFieldT "substrates"
    (ci.substrates.map (fun x => .msg (tfieldsOfSubstrateCapacitance x))) ++
  repFieldT "overlaps"
    (ci.overlaps.map (fun x => .msg (tfieldsOfOverlapCapacitance x))) ++
  repFieldT "sidewalls"
    (ci.sidewalls.map (fun x => .msg (tfieldsOfSidewallCapacitance x))) ++
  repFieldT "sideoverlaps"
    (ci.sideoverlaps.map (fun x => .msg (tfieldsOfSideOverlapCapacitance x)))

/-- Textual decoding of a CapacitanceInfo block. -/
def capacitanceInfoOfT (v : TVal) : Except String CapacitanceInfo := do
  match v with
  | .msg fs => do
      let s ← mapDec substrateCapacitanceOfT (collectKey fs "substrates")
      let o ← mapDec overlapCapacitanceOfT (collectKey fs "overlaps")
      let sw ← mapDec sidewallCapacitanceOfT (collectKey fs "sidewalls")
      let so ← mapDec sideOverlapCapacitanceOfT (collectKey fs "sideoverlaps")
      pure { substrates := s, overlaps := o, sidewalls := sw,
             sideoverlaps := so }
  | _ => .error "expected message block"

/-- Textual fields of a ProcessParasiticsInfo. -/
def tfieldsOfProcessParasiticsInfo (ex : ProcessParasiticsInfo) :
    List (String × TVal) :=
  [("side_halo", .num ex.side_halo)] ++
  optFieldT "resistance"
    (ex.resistance.map (fun r => .msg (tfieldsOfResistanceInfo r))) ++
  optFieldT "capacitance"
    (ex.capacitance.map (fun c => .msg (tfieldsOfCapacitanceInfo c)))

/-- Textual decoding of a ProcessParasiticsInfo block. -/
def processParasiticsInfoOfT (v : TVal) :
    Except String ProcessParasiticsInfo := do
  match v with
  | .msg fs => do
      let sh ← decNumT (firstKey fs "side_halo")
      let r ← decOptVal resistanceInfoOfT (firstKey fs "resistance")
      let c ← decOptVal capacitanceInfoOfT (firstKey fs "capacitance")
      pure { side_halo := sh, resistance := r, capacitance := c }
  | _ => .error "expected message block"

/-- Textual body of a Technology document: the top-level field list of the
pretty-text form. -/
def tbodyOfTechnology (tech : Technology) : List (String × TVal) :=
  [("name", .str tech.name)] ++
  repFieldT "layers"
    (tech.layers.map (fun x => .msg (tfieldsOfLayerInfo x))) ++
  repFieldT "pin_layer_mappings"
    (tech.pin_layer_mappings.map
      (fun x => .msg (tfieldsOfPinLayerMapping x))) ++
  repFieldT "lvs_computed_layers"
    (tech.lvs_computed_layers.map
      (fun x => .msg (tfieldsOfComputedLayerInfo x))) ++
  optFieldT "process_stack"
    (tech.process_stack.map (fun x => .msg (tfieldsOfProcessStackInfo x))) ++
  optFieldT "process_parasitics"
    (tech.process_parasitics.map
      (fun x => .msg (tfieldsOfProcessParasiticsInfo x)))

/-- Textual decoding of a Technology document from the top-level field
list. -/
def technologyOfTBody (fs : List (String × TVal)) :
    Except String Technology := do
  let name ← decStrT (firstKey fs "name")
  let layers ← mapDec layerInfoOfT (collectKey fs "layers")
  let plm ← mapDec pinLayerMappingOfT (collectKey fs "pin_layer_mappings")
  let lvs ← mapDec computedLayerInfoOfT (collectKey fs "lvs_computed_layers")
  let ps ← decOptVal processStackInfoOfT (firstKey fs "process_stack")
  let pp ← decOptVal processParasiticsInfoOfT
    (firstKey fs "process_parasitics")
  pure { name := name, layers := layers, pin_layer_mappings := plm,
         lvs_computed_layers := lvs, process_stack := ps,
         process_parasitics := pp }

/-- Pretty-text file payload: the two header comment lines protobuf.cpp
write prepends (the schema file name and the root message name), then the
top-level field list. -/
structure TextDoc where
  schemaComment : String
  messageComment : String
  body : List (String × TVal)

/-- Textual encoding of a Technology document as written by protobuf.cpp
write: header comments naming tech.proto and kpex.tech.Technology, then the
printed body. -/
def textOfTechnology (tech : Technology) : TextDoc :=
  { schemaComment := "# proto-file: tech.proto",
    messageComment := "# proto-message: kpex.tech.Technology",
    body := tbodyOfTechnology tech }

/-- Textual decoding of a Technology document: comment lines are skipped by
the parser, only the body is read. -/
def technologyOfText (d : TextDoc) : Except String Technology :=
  technologyOfTBody d.body

/-!
Round-trip lemmas for the textual codec.
-/

/-- First-occurrence lookup distributes over concatenation. -/
theorem firstKey_append (l1 l2 : List (String × TVal)) (k : String) :
    firstKey (l1 ++ l2) k = (firstKey l1 k).or (firstKey l2 k) := by
  induction l1 with
  | nil => simp [firstKey]
  | cons hd tl ih =>
      obtain ⟨k', v⟩ := hd
      by_cases h : k' = k <;> simp [firstKey, h, ih]

/-- Occurrence collection distributes over concatenation. -/
theorem collectKey_append (l1 l2 : List (String × TVal)) (k : String) :
    collectKey (l1 ++ l2) k = collectKey l1 k ++ collectKey l2 k := by
  induction l1 with
  | nil => simp [collectKey]
  | cons hd tl ih =>
      obtain ⟨k', v⟩ := hd
      by_cases h : k' = k <;> simp [collectKey, h, ih]

/-- First-occurrence lookup of the key of an optional segment returns the
optional value. -/
theorem firstKey_optFieldT_self (k : String) (m : Option TVal) :
    firstKey (optFieldT k m) k = m := by
  cases m <;> simp [optFieldT, firstKey]

/-- First-occurrence lookup of a different key skips an optional segment. -/
theorem firstKey_optFieldT_ne (k' k : String) (m : Option TVal)
    (h : k' ≠ k) : firstKey (optFieldT k' m) k = none := by
  cases m <;> simp [optFieldT, firstKey, h]

/-- First-occurrence lookup of a different key skips a repeated segment. -/
theorem firstKey_repFieldT_ne (k' k : String) (vs : List TVal)
    (h : k' ≠ k) : firstKey (repFieldT k' vs) k = none := by
  induction vs with
  | nil => simp [repFieldT, firstKey]
  | cons hd tl ih => simpa [repFieldT, firstKey, h] using ih

/-- Collecting the key of a repeated segment returns all its values. -/
theorem collectKey_repFieldT_self (k : String) (vs : List TVal) :
    collectKey (repFieldT k vs) k = vs := by
  induction vs with
  | nil => simp [repFieldT, collectKey]
  | cons hd tl ih => simpa [repFieldT, collectKey] using ih

/-- Collecting a different key skips a repeated segment. -/
theorem collectKey_repFieldT_ne (k' k : String) (vs : List TVal)
    (h : k' ≠ k) : collectKey (repFieldT k' vs) k = [] := by
  induction vs with
  | nil => simp [repFieldT, collectKey]
  | cons hd tl ih => simpa [repFieldT, collectKey, h] using ih

/-- Collecting a different key skips an optional segment. -/
theorem collectKey_optFieldT_ne (k' k : String) (m : Option TVal)
    (h : k' ≠ k) : collectKey (optFieldT k' m) k = [] := by
  cases m <;> simp [optFieldT, collectKey, h]

/-- Decoding the textual number of a natural recovers it. -/
theorem decNatT_natCast (n : Nat) :
    decNatT (some (.num (n : ℚ))) = .ok n := by
  simp [decNatT, Rat.den_natCast, Rat.num_natCast]

/-- Decoding the bare identifier of a Purpose value recovers the value. -/
theorem decEnumT_purpose (d : Purpose) (p : Purpose) :
    decEnumT purposeOfName d (some (.enum p.protoName)) = .ok p := by
  cases p <;> rfl

/-- Decoding the bare identifier of a ComputedLayerKind value recovers the
value. -/
theorem decEnumT_kind (d : ComputedLayerKind) (k : ComputedLayerKind) :
    decEnumT kindOfName d (some (.enum k.protoName)) = .ok k := by
  cases k <;> rfl

/-- Decoding the bare identifier of a LayerType value recovers the value. -/
theorem decEnumT_layerType (d : LayerType) (t : LayerType) :
    decEnumT layerTypeOfName d (some (.enum t.protoName)) = .ok t := by
  cases t <;> rfl

/-- GDSPair textual round-trip. -/
theorem gdsPairOfT_tfieldsOf (p : GDSPair) :
    gdsPairOfT (.msg (tfieldsOfGDSPair p)) = .ok p := by
  simp [tfieldsOfGDSPair, gdsPairOfT, firstKey, decNatT_natCast,
    Except.bind, bind, pure, Except.pure]

/-- LayerInfo textual round-trip. -/
theorem layerInfoOfT_tfieldsOf (li : LayerInfo) :
    layerInfoOfT (.msg (tfieldsOfLayerInfo li)) = .ok li := by
  have h : ∀ p : GDSPair,
      gdsPairOfT ((fun p => TVal.msg (tfieldsOfGDSPair p)) p) = .ok p :=
    gdsPairOfT_tfieldsOf
  simp [tfieldsOfLayerInfo, layerInfoOfT, firstKey, firstKey_append,
    firstKey_optFieldT_self, firstKey_optFieldT_ne, decStrT, decNatT_natCast,
    decEnumT_purpose, decOptVal_map h, Except.bind, bind, pure, Except.pure]

/-- PinLayerMapping textual round-trip. -/
theorem pinLayerMappingOfT_tfieldsOf (m : PinLayerMapping) :
    pinLayerMappingOfT (.msg (tfieldsOfPinLayerMapping m)) = .ok m := by
  simp [tfieldsOfPinLayerMapping, pinLayerMappingOfT, firstKey, decStrT,
    decNatT_natCast, Except.bind, bind, pure, Except.pure]

/-- ComputedLayerInfo textual round-trip. -/
theorem computedLayerInfoOfT_tfieldsOf (cl : ComputedLayerInfo) :
    computedLayerInfoOfT (.msg (tfieldsOfComputedLayerInfo cl)) = .ok cl := by
  have h : ∀ li : LayerInfo,
      layerInfoOfT ((fun li => TVal.msg (tfieldsOfLayerInfo li)) li) =
        .ok li := layerInfoOfT_tfieldsOf
  simp [tfieldsOfComputedLayerInfo, computedLayerInfoOfT, firstKey,
    firstKey_append, firstKey_optFieldT_self, firstKey_optFieldT_ne,
    decStrT, decEnumT_kind, decOptVal_map h, Except.bind, bind, pure,
    Except.pure]

/-- Contact textual round-trip. -/
theorem contactOfT_tfieldsOf (co : Contact) :
    contactOfT (.msg (tfieldsOfContact co)) = .ok co := by
  simp [tfieldsOfContact, contactOfT, firstKey, decStrT, decNumT,
    Except.bind, bind, pure, Except.pure]

/-- SubstrateLayer textual round-trip. -/
theorem substrateLayerOfT_tfieldsOf (sl : SubstrateLayer) :
    substrateLayerOfT (.msg (tfieldsOfSubstrateLayer sl)) = .ok sl := by
  simp [tfieldsOfSubstrateLayer, substrateLayerOfT, firstKey, decStrT,
    decNumT, Except.bind, bind, pure, Except.pure]

/-- NWellLayer textual round-trip. -/
theorem nwellLayerOfT_tfieldsOf (wl : NWellLayer) :
    nwellLayerOfT (.msg (tfieldsOfNWellLayer wl)) = .ok wl := by
  have h : ∀ co : Contact,
      contactOfT ((fun co => TVal.msg (tfieldsOfContact co)) co) = .ok co :=
    contactOfT_tfieldsOf
  simp [tfieldsOfNWellLayer, nwellLayerOfT, firstKey, firstKey_append,
    firstKey_optFieldT_self, firstKey_optFieldT_ne, decStrT, decNumT,
    decOptVal_map h, Except.bind, bind, pure, Except.pure]

/-- DiffusionLayer textual round-trip. -/
theorem diffusionLayerOfT_tfieldsOf (dl : DiffusionLayer) :
    diffusionLayerOfT (.msg (tfieldsOfDiffusionLayer dl)) = .ok dl := by
  have h : ∀ co : Contact,
      contactOfT ((fun co => TVal.msg (tfieldsOfContact co)) co) = .ok co :=
    contactOfT_tfieldsOf
  simp [tfieldsOfDiffusionLayer, diffusionLayerOfT, firstKey,
    firstKey_append, firstKey_optFieldT_self, firstKey_optFieldT_ne,
    decStrT, decNumT, decOptVal_map h, Except.bind, bind, pure, Except.pure]

/-- FieldOxideLayer textual round-trip. -/
theorem fieldOxideLayerOfT_tfieldsOf (fl : FieldOxideLayer) :
    fieldOxideLayerOfT (.msg (tfieldsOfFieldOxideLayer fl)) = .ok fl := by
  simp [tfieldsOfFieldOxideLayer, fieldOxideLayerOfT, firstKey, decNumT,
    Except.bind, bind, pure, Except.pure]

/-- MetalLayer textual round-trip. -/
theorem metalLayerOfT_tfieldsOf (ml : MetalLayer) :
    metalLayerOfT (.msg (tfieldsOfMetalLayer ml)) = .ok ml := by
  have h : ∀ co : Contact,
      contactOfT ((fun co => TVal.msg (tfieldsOfContact co)) co) = .ok co :=
    contactOfT_tfieldsOf
  simp [tfieldsOfMetalLayer, metalLayerOfT, firstKey, firstKey_append,
    firstKey_optFieldT_self, firstKey_optFieldT_ne, decStrT, decNumT,
    decOptVal_map h, Except.bind, bind, pure, Except.pure]

/-- SidewallDielectricLayer textual round-trip. -/
theorem sidewallDielectricLayerOfT_tfieldsOf (swl : SidewallDielectricLayer) :
    sidewallDielectricLayerOfT (.msg (tfieldsOfSidewallDielectricLayer swl)) =
      .ok swl := by
  simp [tfieldsOfSidewallDielectricLayer, sidewallDielectricLayerOfT,
    firstKey, decStrT, decNumT, Except.bind, bind, pure, Except.pure]

/-- SimpleDielectricLayer textual round-trip. -/
theorem simpleDielectricLayerOfT_tfieldsOf (sdl : SimpleDielectricLayer) :
    simpleDielectricLayerOfT (.msg (tfieldsOfSimpleDielectricLayer sdl)) =
      .ok sdl := by
  simp [tfieldsOfSimpleDielectricLayer, simpleDielectricLayerOfT, firstKey,
    decStrT, decNumT, Except.bind, bind, pure, Except.pure]

/-- ConformalDielectricLayer textual round-trip. -/
theorem conformalDielectricLayerOfT_tfieldsOf
    (cl : ConformalDielectricLayer) :
    conformalDielectricLayerOfT
      (.msg (tfieldsOfConformalDielectricLayer cl)) = .ok cl := by
  simp [tfieldsOfConformalDielectricLayer, conformalDielectricLayerOfT,
    firstKey, decStrT, decNumT, Except.bind, bind, pure, Except.pure]

/-- StackLayerInfo textual round-trip. -/
theorem stackLayerInfoOfT_tfieldsOf (li : StackLayerInfo) :
    stackLayerInfoOfT (.msg (tfieldsOfStackLayerInfo li)) = .ok li := by
  have h1 : ∀ x : SubstrateLayer,
      substrateLayerOfT ((fun x => TVal.msg (tfieldsOfSubstrateLayer x)) x) =
        .ok x := substrateLayerOfT_tfieldsOf
  have h2 : ∀ x : NWellLayer,
      nwellLayerOfT ((fun x => TVal.msg (tfieldsOfNWellLayer x)) x) =
        .ok x := nwellLayerOfT_tfieldsOf
  have h3 : ∀ x : DiffusionLayer,
      diffusionLayerOfT ((fun x => TVal.msg (tfieldsOfDiffusionLayer x)) x) =
        .ok x := diffusionLayerOfT_tfieldsOf
  have h4 : ∀ x : FieldOxideLayer,
      fieldOxideLayerOfT
        ((fun x => TVal.msg (tfieldsOfFieldOxideLayer x)) x) = .ok x :=
    fieldOxideLayerOfT_tfieldsOf
  have h5 : ∀ x : MetalLayer,
      metalLayerOfT ((fun x => TVal.msg (tfieldsOfMetalLayer x)) x) =
        .ok x := metalLayerOfT_tfieldsOf
  have h6 : ∀ x : SidewallDielectricLayer,
      sidewallDielectricLayerOfT
        ((fun x => TVal.msg (tfieldsOfSidewallDielectricLayer x)) x) =
        .ok x := sidewallDielectricLayerOfT_tfieldsOf
  have h7 : ∀ x : SimpleDielectricLayer,
      simpleDielectricLayerOfT
        ((fun x => TVal.msg (tfieldsOfSimpleDielectricLayer x)) x) =
        .ok x := simpleDielectricLayerOfT_tfieldsOf
  have h8 : ∀ x : ConformalDielectricLayer,
      conformalDielectricLayerOfT
        ((fun x => TVal.msg (tfieldsOfConformalDielectricLayer x)) x) =
        .ok x := conformalDielectricLayerOfT_tfieldsOf
  simp [tfieldsOfStackLayerInfo, stackLayerInfoOfT, firstKey,
    firstKey_append, firstKey_optFieldT_self, firstKey_optFieldT_ne,
    decStrT, decEnumT_layerType, decOptVal_map h1, decOptVal_map h2,
    decOptVal_map h3, decOptVal_map h4, decOptVal_map h5, decOptVal_map h6,
    decOptVal_map h7, decOptVal_map h8, Except.bind, bind, pure, Except.pure]

/-- ProcessStackInfo textual round-trip. -/
theorem processStackInfoOfT_tfieldsOf (psi : ProcessStackInfo) :
    processStackInfoOfT (.msg (tfieldsOfProcessStackInfo psi)) = .ok psi := by
  have h : ∀ x : StackLayerInfo,
      stackLayerInfoOfT ((fun x => TVal.msg (tfieldsOfStackLayerInfo x)) x) =
        .ok x := stackLayerInfoOfT_tfieldsOf
  simp [tfieldsOfProcessStackInfo, processStackInfoOfT,
    collectKey_repFieldT_self, mapDec_map h, Except.bind, bind, pure,
    Except.pure]

/-- LayerResistance textual round-trip. -/
theorem layerResistanceOfT_tfieldsOf (lr : LayerResistance) :
    layerResistanceOfT (.msg (tfieldsOfLayerResistance lr)) = .ok lr := by
  have h : ∀ q : ℚ, decNumTV (TVal.num q) = .ok q := fun _ => rfl
  simp [tfieldsOfLayerResistance, layerResistanceOfT, firstKey,
    firstKey_append, firstKey_optFieldT_self, firstKey_optFieldT_ne,
    decStrT, decNumT, decOptVal_map h, Except.bind, bind, pure, Except.pure]

/-- ContactResistance textual round-trip. -/
theorem contactResistanceOfT_tfieldsOf (cr : ContactResistance) :
    contactResistanceOfT (.msg (tfieldsOfContactResistance cr)) = .ok cr := by
  simp [tfieldsOfContactResistance, contactResistanceOfT, firstKey, decStrT,
    decNumT, Except.bind, bind, pure, Except.pure]

/-- ViaResistance textual round-trip. -/
theorem viaResistanceOfT_tfieldsOf (vr : ViaResistance) :
    viaResistanceOfT (.msg (tfieldsOfViaResistance vr)) = .ok vr := by
  simp [tfieldsOfViaResistance, viaResistanceOfT, firstKey, decStrT, decNumT,
    Except.bind, bind, pure, Except.pure]

/-- ResistanceInfo textual round-trip. -/
theorem resistanceInfoOfT_tfieldsOf (ri : ResistanceInfo) :
    resistanceInfoOfT (.msg (tfieldsOfResistanceInfo ri)) = .ok ri := by
  have h1 : ∀ x : LayerResistance,
      layerResistanceOfT ((fun x => TVal.msg (tfieldsOfLayerResistance x)) x) =
        .ok x := layerResistanceOfT_tfieldsOf
  have h2 : ∀ x : ContactResistance,
      contactResistanceOfT
        ((fun x => TVal.msg (tfieldsOfContactResistance x)) x) = .ok x :=
    contactResistanceOfT_tfieldsOf
  have h3 : ∀ x : ViaResistance,
      viaResistanceOfT ((fun x => TVal.msg (tfieldsOfViaResistance x)) x) =
        .ok x := viaResistanceOfT_tfieldsOf
  simp [tfieldsOfResistanceInfo, resistanceInfoOfT, collectKey_append,
    collectKey_repFieldT_self, collectKey_repFieldT_ne, mapDec_map h1,
    mapDec_map h2, mapDec_map h3, Except.bind, bind, pure, Except.pure]

/-- SubstrateCapacitance textual round-trip. -/
theorem substrateCapacitanceOfT_tfieldsOf (sc : SubstrateCapacitance) :
    substrateCapacitanceOfT (.msg (tfieldsOfSubstrateCapacitance sc)) =
      .ok sc := by
  simp [tfieldsOfSubstrateCapacitance, substrateCapacitanceOfT, firstKey,
    decStrT, decNumT, Except.bind, bind, pure, Except.pure]

/-- OverlapCapacitance textual round-trip. -/
theorem overlapCapacitanceOfT_tfieldsOf (oc : OverlapCapacitance) :
    overlapCapacitanceOfT (.msg (tfieldsOfOverlapCapacitance oc)) =
      .ok oc := by
  simp [tfieldsOfOverlapCapacitance, overlapCapacitanceOfT, firstKey,
    decStrT, decNumT, Except.bind, bind, pure, Except.pure]

/-- SidewallCapacitance textual round-trip. -/
theorem sidewallCapacitanceOfT_tfieldsOf (swc : SidewallCapacitance) :
    sidewallCapacitanceOfT (.msg (tfieldsOfSidewallCapacitance swc)) =
      .ok swc := by
  simp [tfieldsOfSidewallCapacitance, sidewallCapacitanceOfT, firstKey,
    decStrT, decNumT, Except.bind, bind, pure, Except.pure]

/-- SideOverlapCapacitance textual round-trip. -/
theorem sideOverlapCapacitanceOfT_tfieldsOf (soc : SideOverlapCapacitance) :
    sideOverlapCapacitanceOfT (.msg (tfieldsOfSideOverlapCapacitance soc)) =
      .ok soc := by
  simp [tfieldsOfSideOverlapCapacitance, sideOverlapCapacitanceOfT,
    firstKey, decStrT, decNumT, Except.bind, bind, pure, Except.pure]

/-- CapacitanceInfo textual round-trip. -/
theorem capacitanceInfoOfT_tfieldsOf (ci : CapacitanceInfo) :
    capacitanceInfoOfT (.msg (tfieldsOfCapacitanceInfo ci)) = .ok ci := by
  have h1 : ∀ x : SubstrateCapacitance,
      substrateCapacitanceOfT
        ((fun x => TVal.msg (tfieldsOfSubstrateCapacitance x)) x) = .ok x :=
    substrateCapacitanceOfT_tfieldsOf
  have h2 : ∀ x : OverlapCapacitance,
      overlapCapacitanceOfT
        ((fun x => TVal.msg (tfieldsOfOverlapCapacitance x)) x) = .ok x :=
    overlapCapacitanceOfT_tfieldsOf
  have h3 : ∀ x : SidewallCapacitance,
      sidewallCapacitanceOfT
        ((fun x => TVal.msg (tfieldsOfSidewallCapacitance x)) x) = .ok x :=
    sidewallCapacitanceOfT_tfieldsOf
  have h4 : ∀ x : SideOverlapCapacitance,
      sideOverlapCapacitanceOfT
        ((fun x => TVal.msg (tfieldsOfSideOverlapCapacitance x)) x) =
        .ok x := sideOverlapCapacitanceOfT_tfieldsOf
  simp [tfieldsOfCapacitanceInfo, capacitanceInfoOfT, collectKey_append,
    collectKey_repFieldT_self, collectKey_repFieldT_ne, mapDec_map h1,
    mapDec_map h2, mapDec_map h3, mapDec_map h4, Except.bind, bind, pure,
    Except.pure]

/-- ProcessParasiticsInfo textual round-trip. -/
theorem processParasiticsInfoOfT_tfieldsOf (ex : ProcessParasiticsInfo) :
    processParasiticsInfoOfT (.msg (tfieldsOfProcessParasiticsInfo ex)) =
      .ok ex := by
  have h1 : ∀ x : ResistanceInfo,
      resistanceInfoOfT ((fun x => TVal.msg (tfieldsOfResistanceInfo x)) x) =
        .ok x := resistanceInfoOfT_tfieldsOf
  have h2 : ∀ x : CapacitanceInfo,
      capacitanceInfoOfT ((fun x => TVal.msg (tfieldsOfCapacitanceInfo x)) x) =
        .ok x := capacitanceInfoOfT_tfieldsOf
  simp [tfieldsOfProcessParasiticsInfo, processParasiticsInfoOfT, firstKey,
    firstKey_append, firstKey_optFieldT_self, firstKey_optFieldT_ne,
    decNumT, decOptVal_map h1, decOptVal_map h2, Except.bind, bind, pure,
    Except.pure]

/-- Technology textual round-trip: parsing the printed file recovers the
document. -/
theorem technologyOfText_textOf (tech : Technology) :
    technologyOfText (textOfTechnology tech) = .ok tech := by
  have h1 : ∀ x : LayerInfo,
      layerInfoOfT ((fun x => TVal.msg (tfieldsOfLayerInfo x)) x) = .ok x :=
    layerInfoOfT_tfieldsOf
  have h2 : ∀ x : PinLayerMapping,
      pinLayerMappingOfT ((fun x => TVal.msg (tfieldsOfPinLayerMapping x)) x) =
        .ok x := pinLayerMappingOfT_tfieldsOf
  have h3 : ∀ x : ComputedLayerInfo,
      computedLayerInfoOfT
        ((fun x => TVal.msg (tfieldsOfComputedLayerInfo x)) x) = .ok x :=
    computedLayerInfoOfT_tfieldsOf
  have h4 : ∀ x : ProcessStackInfo,
      processStackInfoOfT
        ((fun x => TVal.msg (tfieldsOfProcessStackInfo x)) x) = .ok x :=
    processStackInfoOfT_tfieldsOf
  have h5 : ∀ x : ProcessParasiticsInfo,
      processParasiticsInfoOfT
        ((fun x => TVal.msg (tfieldsOfProcessParasiticsInfo x)) x) = .ok x :=
    processParasiticsInfoOfT_tfieldsOf
  simp [textOfTechnology, technologyOfText, tbodyOfTechnology,
    technologyOfTBody, firstKey, firstKey_append, firstKey_optFieldT_self,
    firstKey_optFieldT_ne, firstKey_repFieldT_ne, collectKey, collectKey_append,
    collectKey_repFieldT_self, collectKey_repFieldT_ne,
    collectKey_optFieldT_ne, decStrT, mapDec_map h1, mapDec_map h2,
    mapDec_map h3, decOptVal_map h4, decOptVal_map h5, Except.bind, bind,
    pure, Except.pure]

/-!
Top-level codec operations, translated from src/cxx/gen_tech_pb/protobuf.cpp
write (lines 34-70), read (lines 72-104) and convert (lines 106-116), over
the modelled payloads of the three encodings.
-/

/-- Output format selector, translated from the protobuf.h Format enum. -/
inductive Format where
  | PROTOBUF_TEXTUAL
  | PROTOBUF_BINARY
  | JSON
deriving DecidableEq

/-- File payload of one encoding: a pretty-text document, a dense binary
token stream, or a JSON value. -/
inductive Payload where
  | textual (d : TextDoc)
  | binary (ts : List BTok)
  | json (j : Json)

/-- Serialization dispatch of write: encode the document in the chosen
format. -/
def encode (tech : Technology) : Format → Payload
  | .PROTOBUF_TEXTUAL => .textual (textOfTechnology tech)
  | .PROTOBUF_BINARY => .binary (binOfTechnology tech)
  | .JSON => .json (jsonOfTechnology tech)

/-- Parsing dispatch of read: decode a payload in the chosen format.  A
payload of a different format than requested, or a structurally invalid
payload, is a parse failure; the binary parser additionally requires the
stream to be fully consumed. -/
def decode (p : Payload) : Format → Except String Technology
  | .PROTOBUF_TEXTUAL =>
      match p with
      | .textual d => technologyOfText d
      | _ => .error "payload format mismatch"
  | .PROTOBUF_BINARY =>
      match p with
      | .binary ts => do
          let (t, r) ← technologyOfBin ts
          match r with
          | [] => pure t
          | _ => .error "trailing tokens"
      | _ => .error "payload format mismatch"
  | .JSON =>
      match p with
      | .json j => technologyOfJson j
      | _ => .error "payload format mismatch"

/-- Translation of protobuf.cpp read (lines 72-104).  All three branches
discard the parse status (the TextFormat Parse return value, the
ParseFromIstream return value and the JsonStringToMessage status object are
never inspected), so the function cannot signal failure to its caller: on a
parse failure the document passed in stays as it was. -/
def read (tech : Technology) (p : Payload) (f : Format) : Technology :=
  match decode p f with
  | .ok t => t
  | .error _ => tech

/-- Translation of protobuf.cpp convert (lines 106-116): default-construct a
document, read the input into it, write it out in the output format. -/
def convert (p : Payload) (inputFormat outputFormat : Format) : Payload :=
  encode (read {} p inputFormat) outputFormat

/-- Round-trip of the dispatch codec: decoding an encoded document in the
same format recovers the document, in every format. -/
theorem decode_encode (tech : Technology) (f : Format) :
    decode (encode tech f) f = .ok tech := by
  cases f with
  | PROTOBUF_TEXTUAL => simp [encode, decode, technologyOfText_textOf]
  | PROTOBUF_BINARY =>
      have h := technologyOfBin_binOf tech []
      rw [List.append_nil] at h
      simp [encode, decode, h, Except.bind, bind, pure, Except.pure]
  | JSON => simp [encode, decode, technologyOfJson_jsonOf]

/-!
Filesystem behavior of write, translated from protobuf.cpp write
(lines 34-70).  The destination is modelled as an abstract output file: the
open step either succeeds (truncating the file) or fails, and the stream
then accepts some number of the chunks the function emits — mirroring an
ofstream that goes bad part-way.  The source inspects neither the stream
state nor any status object and returns void, so the model reports no error
in any outcome.
-/

/-- One unit of output written to the destination stream by write: a header
comment line, a pretty-text body, a binary stream, or a fully buffered JSON
string. -/
inductive Chunk where
  | comment (s : String)
  | textBody (fields : List (String × TVal))
  | binBody (ts : List BTok)
  | jsonBody (j : Json)

/-- Destination behavior for one write call: whether the open succeeds, and
how many chunks the stream accepts before going bad (no bound means all). -/
structure OutFS where
  canOpen : Bool
  capacity : Option Nat

/-- Chunk sequence emitted by protobuf.cpp write for each format: the
textual branch writes the two header comment lines and then prints the body;
the binary branch serializes the stream; the JSON branch builds the whole
JSON string in memory first and writes it as one piece. -/
def writeChunks (tech : Technology) : Format → List Chunk
  | .PROTOBUF_TEXTUAL =>
      [.comment "# proto-file: tech.proto",
       .comment "# proto-message: kpex.tech.Technology",
       .textBody (tbodyOfTechnology tech)]
  | .PROTOBUF_BINARY => [.binBody (binOfTechnology tech)]
  | .JSON => [.jsonBody (jsonOfTechnology tech)]

/-- Translation of the filesystem effect of protobuf.cpp write: on a failed
open the destination keeps its prior contents and the emitted chunks vanish;
on a successful open the file is truncated and receives the accepted prefix
of the emitted chunks.  The second component is the error the call reports
to its caller: the source returns void and never checks the stream, so it is
none in every outcome. -/
def write (prior : Option (List Chunk)) (fs : OutFS) (tech : Technology)
    (f : Format) : Option (List Chunk) × Option String :=
  if fs.canOpen then
    (some (match fs.capacity with
           | none => writeChunks tech f
           | some c => (writeChunks tech f).take c), none)
  else (prior, none)

/-!
Output files of one run, translated from src/cxx/gen_tech_pb/main.cpp.
-/

/-- Translation of main.cpp writeTech (lines 28-46): one JSON file per
technology, at the hardcoded path build/(name)_tech.pb.json; the binary and
textual write calls and the convert calls are commented out in the source. -/
def writeTech (tech_name : String) (_tech : Technology) :
    List (String × Format) :=
  [("build/" ++ tech_name ++ "_tech" ++ ".pb.json", Format.JSON)]

/-- Translation of main.cpp main (lines 48-67): build and write the sky130A
document, then build and write the ihp_sg13g2 document. -/
def mainWrites (skyTech ihpTech : Technology) : List (String × Format) :=
  writeTech "sky130A" skyTech ++ writeTech "ihp_sg13g2" ihpTech

/-!
Stack Assembler.  The construction API in src/ records only explicitly
supplied heights; the derivation pass the design describes is not among the
files under src/.
-/

/-- Modelled from the spec: one authored process-stack slice as the Stack
Assembler sees it.  A positioned layer (Substrate, NWell, Diffusion or
Metal) carries an optional explicit height, its thickness, and the thickness
of the contact above it; a dielectric slice contributes zero to cumulative
thickness.  Numeric values are exact rationals. -/
inductive SpecStackLayer where
  | positioned (name : String) (height : Option ℚ)
      (thickness contactThickness : ℚ)
  | dielectric (name : String)
deriving DecidableEq

/-- Modelled from the spec: the height-derivation walk of the Stack
Assembler (section 4.2 rule).  The state carries the resolved position,
thickness and contact thickness of the previous positioned layer; a
positioned layer without an explicit height is placed at previous position
plus previous thickness plus previous contact thickness, an explicit height
always takes precedence, and dielectric slices are skipped.  The result
lists each positioned layer with its resolved absolute position. -/
def assemble (st : ℚ × ℚ × ℚ) : List SpecStackLayer → List (String × ℚ)
  | [] => []
  | .dielectric _ :: rest => assemble st rest
  | .positioned n h t c :: rest =>
      let p := h.getD (st.1 + st.2.1 + st.2.2)
      (n, p) :: assemble (p, t, c) rest

/-- State of the assembler after walking a prefix of the stack. -/
def assembleState (st : ℚ × ℚ × ℚ) : List SpecStackLayer → ℚ × ℚ × ℚ
  | [] => st
  | .dielectric _ :: rest => assembleState st rest
  | .positioned _ h t c :: rest =>
      assembleState (h.getD (st.1 + st.2.1 + st.2.2), t, c) rest

/-- The assembler walk splits along concatenation, resuming from the state
reached after the prefix. -/
theorem assemble_append (st : ℚ × ℚ × ℚ) (xs ys : List SpecStackLayer) :
    assemble st (xs ++ ys) =
      assemble st xs ++ assemble (assembleState st xs) ys := by
  induction xs generalizing st with
  | nil => simp [assemble, assembleState]
  | cons hd tl ih =>
      cases hd <;> simp [assemble, assembleState, ih]

/-!
Reference validation.  No validation pass exists among the files under src/;
the PDK producers append records whose name references are never checked
(pdk/sky130A.cpp line 97, for instance, appends a computed layer whose
original_layer_name via1 names no drawn layer).
-/

/-- Modelled from the spec: the document name index the validation pass
resolves references against — the names of the drawn layers, of the computed
layers and of the process-stack layers. -/
def nameIndex (tech : Technology) : List String :=
  tech.layers.map (fun li => li.name) ++
  tech.lvs_computed_layers.map
    (fun cl => ((cl.layer_info.map (fun li => li.name)).getD "")) ++
  (match tech.process_stack with
   | none => []
   | some psi => psi.layers.map (fun li => li.name))

/-- Reference fields carried by one process-stack layer record, as
(field name, referenced name) pairs in declaration order. -/
def stackLayerRefs (li : StackLayerInfo) : List (String × String) :=
  (match li.substrate_layer with
   | none => []
   | some sl => [("reference", sl.reference)]) ++
  (match li.nwell_layer with
   | none => []
   | some wl =>
      [("reference", wl.reference)] ++
      (match wl.contact_above with
       | none => []
       | some co => [("metal_above", co.metal_above)])) ++
  (match li.diffusion_layer with
   | none => []
   | some dl =>
      [("reference", dl.reference)] ++
      (match dl.contact_above with
       | none => []
       | some co => [("metal_above", co.metal_above)])) ++
  (match li.metal_layer with
   | none => []
   | some ml =>
      [("reference_below", ml.reference_below),
       ("reference_above", ml.reference_above)] ++
      (match ml.contact_above with
       | none => []
       | some co => [("metal_above", co.metal_above)])) ++
  (match li.sidewall_dielectric_layer with
   | none => []
   | some swl => [("reference", swl.reference)]) ++
  (match li.simple_dielectric_layer with
   | none => []
   | some sdl => [("reference", sdl.reference)]) ++
  (match li.conformal_dielectric_layer with
   | none => []
   | some cdl => [("reference", cdl.reference)])

/-- All reference triples (record name, field name, referenced name) of a
document, in document order: the original_layer_name of every computed
layer, then every reference field of every process-stack layer. -/
def refTriples (tech : Technology) : List (String × String × String) :=
  tech.lvs_computed_layers.map
    (fun cl => (((cl.layer_info.map (fun li => li.name)).getD ""),
                "original_layer_name", cl.original_layer_name)) ++
  (match tech.process_stack with
   | none => []
   | some psi =>
      psi.layers.flatMap
        (fun li => (stackLayerRefs li).map (fun fn => (li.name, fn.1, fn.2))))

/-- Modelled from the spec: the validation walk collects every reference
triple whose referenced name is missing from the name index, without
stopping at the first. -/
def violations (tech : Technology) : List (String × String × String) :=
  (refTriples tech).filter (fun t => decide (t.2.2 ∉ nameIndex tech))

/-- Modelled from the spec: the validation pass reports all collected
violations together as one DanglingReferenceError, or succeeds when there
are none. -/
def validate (tech : Technology) :
    Except (List (String × String × String)) Unit :=
  if violations tech = [] then .ok () else .error (violations tech)

/-- Declarative characterization of one dangling reference: some record of
the document carries the field, the referenced name is the one of the
triple, and that name is missing from the name index. -/
def DanglingRef (tech : Technology) (t : String × String × String) : Prop :=
  (∃ cl ∈ tech.lvs_computed_layers,
     t = (((cl.layer_info.map (fun li => li.name)).getD ""),
          "original_layer_name", cl.original_layer_name) ∧
     cl.original_layer_name ∉ nameIndex tech) ∨
  (∃ psi, tech.process_stack = some psi ∧
    ∃ li ∈ psi.layers, ∃ fn ∈ stackLayerRefs li,
      t = (li.name, fn.1, fn.2) ∧ fn.2 ∉ nameIndex tech)

/-- Membership in the collected violations coincides with the declarative
characterization of a dangling reference. -/
theorem mem_violations_iff (tech : Technology)
    (t : String × String × String) :
    t ∈ violations tech ↔ DanglingRef tech t := by
  rcases htech : tech.process_stack with _ | psi
  · simp only [violations, List.mem_filter, refTriples, htech,
      List.append_nil, List.mem_map, List.mem_flatMap, decide_eq_true_eq,
      DanglingRef, Option.some.injEq, reduceCtorEq, false_and, exists_false,
      or_false]
    constructor
    · rintro ⟨⟨cl, hcl, rfl⟩, hmiss⟩
      exact ⟨cl, hcl, rfl, hmiss⟩
    · rintro ⟨cl, hcl, rfl, hmiss⟩
      exact ⟨⟨cl, hcl, rfl⟩, hmiss⟩
  · simp only [violations, List.mem_filter, refTriples, htech,
      List.mem_append, List.mem_map, List.mem_flatMap, decide_eq_true_eq,
      DanglingRef, Option.some.injEq]
    constructor
    · rintro ⟨⟨cl, hcl, rfl⟩ | ⟨li, hli, fn, hfn, rfl⟩, hmiss⟩
      · exact Or.inl ⟨cl, hcl, rfl, hmiss⟩
      · exact Or.inr ⟨psi, rfl, li, hli, fn, hfn, rfl, hmiss⟩
    · rintro (⟨cl, hcl, rfl, hmiss⟩ | ⟨psi2, hpsi2, li, hli, fn, hfn, rfl, hmiss⟩)
      · exact ⟨Or.inl ⟨cl, hcl, rfl⟩, hmiss⟩
      · subst hpsi2
        exact ⟨Or.inr ⟨li, hli, fn, hfn, rfl⟩, hmiss⟩

/-!
Claim theorems.
-/

/-- C1: for every Technology document and every supported format A, decoding
the encoding of the document in A recovers the document, including absent
optional fields; and for every format pair (A, B), converting the A encoding
to B yields exactly the B encoding of the document, decoding that B payload
recovers the document, and converting the B payload back to A reproduces the
original A encoding — convert is format-order-independent. -/
theorem claim_C1_roundtrip (doc : Technology) (A B : Format) :
    decode (encode doc A) A = .ok doc ∧
    convert (encode doc A) A B = encode doc B ∧
    decode (convert (encode doc A) A B) B = .ok doc ∧
    convert (convert (encode doc A) A B) B A = encode doc A := by
  have h1 := decode_encode doc A
  have h2 := decode_encode doc B
  refine ⟨h1, ?_, ?_, ?_⟩ <;>
    simp [convert, read, h1, h2, decode_encode]

/-- C2: in the Stack Assembler walk, a positioned layer authored without an
explicit height is placed at the previous positioned layer's height plus its
thickness plus the thickness of the contact above it (so after Metal A at
explicit height hA with thickness tA and contact thickness cA, Metal B with
no explicit height resolves to hA + tA + cA), and an explicitly supplied
height always takes precedence over the derivation. -/
theorem claim_C2_height_derivation (st : ℚ × ℚ × ℚ)
    (pre : List SpecStackLayer) (nA nB : String) (hA tA cA tB cB : ℚ) :
    (assemble st (pre ++
        [.positioned nA (some hA) tA cA, .positioned nB none tB cB]) =
      assemble st pre ++ [(nA, hA), (nB, hA + tA + cA)]) ∧
    ∀ hB : ℚ,
      assemble st (pre ++
         [.positioned nA (some hA) tA cA, .positioned nB (some hB) tB cB]) =
        assemble st pre ++ [(nA, hA), (nB, hB)] := by
  constructor
  · rw [assemble_append]
    simp [assemble, Option.getD]
  · intro hB
    rw [assemble_append]
    simp [assemble, Option.getD]

/-- C3: the validation pass checks every reference field of every record
against the document name index and collects exactly the dangling ones,
without stopping at the first; it reports them together as one
DanglingReferenceError, and when the document contains exactly one dangling
reference the report names exactly that reference and no other. -/
theorem claim_C3_validation (tech : Technology) :
    (∀ t, t ∈ violations tech ↔ DanglingRef tech t) ∧
    (validate tech = .ok () ↔ violations tech = []) ∧
    (violations tech ≠ [] → validate tech = .error (violations tech)) ∧
    (∀ t0, violations tech = [t0] →
      DanglingRef tech t0 ∧ ∀ u, DanglingRef tech u → u = t0) := by
  refine ⟨mem_violations_iff tech, ?_, ?_, ?_⟩
  · constructor
    · intro h
      by_contra hne
      simp [validate, hne] at h
    · intro h
      simp [validate, h]
  · intro hne
    simp [validate, hne]
  · intro t0 h0
    constructor
    · have : t0 ∈ violations tech := by simp [h0]
      exact (mem_violations_iff tech t0).mp this
    · intro u hu
      have : u ∈ violations tech := (mem_violations_iff tech u).mpr hu
      rw [h0] at this
      simpa using this

/-- Document with exactly one dangling reference: the computed layer
met1_con refers to the drawn layer ghost, which does not exist. -/
def danglingDoc : Technology :=
  { name := "t",
    layers := [{ name := "met1" }],
    lvs_computed_layers :=
      [{ kind := .KIND_REGULAR, original_layer_name := "ghost",
         layer_info := some { name := "met1_con" } }] }

/-- C3 witness: on the concrete document with exactly one dangling
reference, the validation pass flags exactly that triple. -/
theorem claim_C3_validation_witness :
    DanglingRef danglingDoc ("met1_con", "original_layer_name", "ghost") ∧
    validate danglingDoc =
      .error [("met1_con", "original_layer_name", "ghost")] :=
  ⟨((claim_C3_validation danglingDoc).2.2.2
      ("met1_con", "original_layer_name", "ghost") (by decide)).1,
   (claim_C3_validation danglingDoc).2.2.1 (by decide)⟩

/-- JSON payload for a Technology whose single Metal process-stack layer has
no name field at all. -/
def metalNoNameJson : Json :=
  .obj [("process_stack", .obj [("layers", .arr
    [.obj [("layer_type", .str "LAYER_TYPE_METAL"),
           ("metal_layer", .obj [("height", .num 1),
                                 ("thickness", .num (36 / 100))])]])])]

/-- Document that decoding metalNoNameJson actually produces: the missing
name is silently defaulted to the empty string. -/
def metalNoNameDoc : Technology :=
  { process_stack := some
      { layers := [{ name := "", layer_type := .LAYER_TYPE_METAL,
                     metal_layer := some
                       { height := 1, thickness := 36 / 100 } }] } }

/-- C4 counterexample: decoding a JSON payload that lacks the required name
field on a Metal layer does not fail — it succeeds and yields a document
whose stack layer name is silently defaulted to the empty string, and read
passes that document through without signaling any error. -/
theorem claim_C4_counterexample :
    decode (Payload.json metalNoNameJson) Format.JSON = .ok metalNoNameDoc ∧
    (metalNoNameDoc.process_stack.getD {}).layers.map
      (fun li => li.name) = [""] ∧
    read {} (Payload.json metalNoNameJson) Format.JSON = metalNoNameDoc := by
  refine ⟨?_, by decide, ?_⟩ <;> rfl

/-- C4 (amended): decode does not reject a JSON payload missing a required
name field — it yields a document with the field defaulted to the empty
string — and read discards every decode failure, leaving the caller's
document unchanged instead of raising an error. -/
theorem claim_C4_amended :
    (decode (Payload.json metalNoNameJson) Format.JSON =
      .ok metalNoNameDoc) ∧
    ∀ (tech0 : Technology) (p : Payload) (f : Format) (e : String),
      decode p f = .error e → read tech0 p f = tech0 := by
  refine ⟨by rfl, ?_⟩
  intro tech0 p f e h
  simp [read, h]

/-- C4 amended witness: on a JSON payload that is structurally invalid (a
bare string), read returns the default document unchanged and no error
reaches the caller. -/
theorem claim_C4_amended_witness :
    read {} (Payload.json (Json.str "x")) Format.JSON = ({} : Technology) :=
  claim_C4_amended.2 {} (Payload.json (Json.str "x")) Format.JSON
    "expected object" (by rfl)

/-- Application of one addLayer call from a packaged argument tuple
(name, gds_layer, gds_datatype, description). -/
def applyAddLayer (tech : Technology) (c : String × Nat × Nat × String) :
    Technology :=
  addLayer tech c.1 c.2.1 c.2.2.1 c.2.2.2

/-- C5: a sequence of N addLayer calls appends exactly N layer records in
call order with no reordering and no deduplication — the resulting layer
list is the prior list followed by one record per call, in order, even when
names repeat; and the bulk setLayerInfos call produces exactly one record
per entry in entry order. -/
theorem claim_C5_append_order (tech : Technology)
    (calls : List (String × Nat × Nat × String))
    (entries : List LayerInfoEntry) :
    ((calls.foldl applyAddLayer tech).layers =
      tech.layers ++ calls.map (fun c =>
        { name := c.1, description := c.2.2.2, gds_layer := c.2.1,
          gds_datatype := c.2.2.1 })) ∧
    (calls.foldl applyAddLayer tech).layers.length =
      tech.layers.length + calls.length ∧
    (setLayerInfos tech entries).layers.length = entries.length := by
  have hfold : ∀ (t : Technology) (cs : List (String × Nat × Nat × String)),
      (cs.foldl applyAddLayer t).layers =
        t.layers ++ cs.map (fun c =>
          { name := c.1, description := c.2.2.2, gds_layer := c.2.1,
            gds_datatype := c.2.2.1 }) := by
    intro t cs
    induction cs generalizing t with
    | nil => simp
    | cons hd tl ih => simp [applyAddLayer, addLayer, ih]
  refine ⟨hfold tech calls, ?_, ?_⟩
  · rw [hfold tech calls]
    simp
  · simp [setLayerInfos]

/-- Entry whose pin GDS pair is half present: the layer half is 16 but the
datatype half is the -1 sentinel. -/
def partialPairEntry : LayerInfoEntry :=
  { name := "met1", drwGDSLayer := 68, drwGDSDataType := 20,
    pinGDSLayer := 16, pinGDSDataType := -1,
    labelGDSLayer := -1, labelGDSDataType := -1, description := "Metal 1" }

/-- C6 counterexample: a construction call supplying a partial GDS pair does
not signal any error and does modify the document — setLayerInfos appends
the record with the half-present pin pair silently dropped. -/
theorem claim_C6_counterexample :
    (setLayerInfos {} [partialPairEntry]).layers =
      [{ name := "met1", description := "Metal 1",
         drw_gds_pair := some { layer := 68, datatype := 20 },
         pin_gds_pair := none, label_gds_pair := none }] := by
  decide

/-- C6 (amended): a call supplying a partial GDS pair does not error and
still appends its record; the pair is populated on the record exactly when
both halves are nonnegative, a partial pair being treated as fully
absent. -/
theorem claim_C6_amended (tech : Technology) (entries : List LayerInfoEntry)
    (e : LayerInfoEntry) (he : e ∈ entries) :
    ∃ li ∈ (setLayerInfos tech entries).layers,
      (li.pin_gds_pair.isSome = true ↔
        (0 ≤ e.pinGDSLayer ∧ 0 ≤ e.pinGDSDataType)) ∧
      (li.label_gds_pair.isSome = true ↔
        (0 ≤ e.labelGDSLayer ∧ 0 ≤ e.labelGDSDataType)) ∧
      li.drw_gds_pair.isSome = true := by
  refine ⟨layerInfoOfEntry e, ?_, ?_, ?_, ?_⟩
  · simp [setLayerInfos]
    exact ⟨e, he, rfl⟩
  · by_cases h : 0 ≤ e.pinGDSLayer ∧ 0 ≤ e.pinGDSDataType <;>
      simp [layerInfoOfEntry, h]
  · by_cases h : 0 ≤ e.labelGDSLayer ∧ 0 ≤ e.labelGDSDataType <;>
      simp [layerInfoOfEntry, h]
  · simp [layerInfoOfEntry]

/-- C6 amended witness: the partial-pair entry is appended with its pin pair
absent and its drawn pair present. -/
theorem claim_C6_amended_witness :
    ∃ li ∈ (setLayerInfos {} [partialPairEntry]).layers,
      (li.pin_gds_pair.isSome = true ↔
        (0 ≤ partialPairEntry.pinGDSLayer ∧
         0 ≤ partialPairEntry.pinGDSDataType)) ∧
      (li.label_gds_pair.isSome = true ↔
        (0 ≤ partialPairEntry.labelGDSLayer ∧
         0 ≤ partialPairEntry.labelGDSDataType)) ∧
      li.drw_gds_pair.isSome = true :=
  claim_C6_amended {} [partialPairEntry] partialPairEntry (by decide)

/-- C7 counterexample: a write whose destination stream goes bad after two
chunks reports no error and leaves a half-written textual file — the two
header comment lines without the body; and a write whose destination cannot
be opened at all also reports no error. -/
theorem claim_C7_counterexample :
    write none { canOpen := true, capacity := some 2 } {}
        Format.PROTOBUF_TEXTUAL =
      (some [Chunk.comment "# proto-file: tech.proto",
             Chunk.comment "# proto-message: kpex.tech.Technology"], none) ∧
    write (some [Chunk.comment "old"]) { canOpen := false, capacity := none }
        {} Format.JSON =
      (some [Chunk.comment "old"], none) := by
  constructor <;> rfl

/-- C7 (amended): write opens the destination directly and truncates it; it
never reports an error in any outcome (the source inspects no stream state),
a failed open leaves the prior file in place, a successful open leaves some
prefix of the emitted chunks — possibly a proper, half-written prefix — and
only the JSON path buffers the entire payload as a single chunk before the
destination is involved. -/
theorem claim_C7_amended (prior : Option (List Chunk)) (fs : OutFS)
    (tech : Technology) (f : Format) :
    (write prior fs tech f).2 = none ∧
    (fs.canOpen = false → (write prior fs tech f).1 = prior) ∧
    (fs.canOpen = true →
      ∃ k, (write prior fs tech f).1 = some ((writeChunks tech f).take k)) ∧
    (writeChunks tech Format.JSON).length = 1 := by
  refine ⟨?_, ?_, ?_, by simp [writeChunks]⟩
  · cases hfs : fs.canOpen <;> simp [write, hfs]
  · intro h
    simp [write, h]
  · intro h
    cases hc : fs.capacity with
    | none =>
        exact ⟨(writeChunks tech f).length, by
          simp [write, h, hc, List.take_length]⟩
    | some c => exact ⟨c, by simp [write, h, hc]⟩

/-- C7 amended witness: with an unlimited healthy destination, the JSON
write reports no error and the file holds a prefix of the emitted chunks. -/
theorem claim_C7_amended_witness :
    (write none { canOpen := true, capacity := none } {} Format.JSON).2 =
        none ∧
    ∃ k, (write none { canOpen := true, capacity := none } {}
            Format.JSON).1 =
          some ((writeChunks {} Format.JSON).take k) :=
  ⟨(claim_C7_amended none { canOpen := true, capacity := none } {}
      Format.JSON).1,
   (claim_C7_amended none { canOpen := true, capacity := none } {}
      Format.JSON).2.2.1 (by rfl)⟩

/-- C8 counterexample: one run writes exactly one file per foundry — a JSON
file at the hardcoded path build/(foundry)_tech.pb.json — not one file per
supported format in a caller-specified directory. -/
theorem claim_C8_counterexample :
    mainWrites {} {} =
      [("build/sky130A_tech.pb.json", Format.JSON),
       ("build/ihp_sg13g2_tech.pb.json", Format.JSON)] ∧
    (writeTech "sky130A" {}).length = 1 := by
  constructor <;> rfl

/-- C8 (amended): for each of the two foundries built in a run (sky130A and
ihp_sg13g2), the program writes exactly one output file, in JSON format
only, named build/(foundry)_tech.pb.json under the hardcoded build prefix;
the binary and textual outputs are disabled and no output directory is taken
from the caller. -/
theorem claim_C8_amended (t1 t2 : Technology) :
    (mainWrites t1 t2).length = 2 ∧
    (writeTech "sky130A" t1).length = 1 ∧
    ∀ pf ∈ mainWrites t1 t2,
      pf.2 = Format.JSON ∧
      (pf.1 = "build/sky130A_tech.pb.json" ∨
       pf.1 = "build/ihp_sg13g2_tech.pb.json") := by
  refine ⟨rfl, rfl, ?_⟩
  intro pf hpf
  have : pf = ("build/sky130A_tech.pb.json", Format.JSON) ∨
      pf = ("build/ihp_sg13g2_tech.pb.json", Format.JSON) := by
    simpa [mainWrites, writeTech] using hpf
  rcases this with rfl | rfl
  · exact ⟨rfl, Or.inl rfl⟩
  · exact ⟨rfl, Or.inr rfl⟩

/-- C8 amended witness: the first write of a run is the sky130A JSON file
under the build prefix. -/
theorem claim_C8_amended_witness :
    (("build/sky130A_tech.pb.json", Format.JSON) : String × Format).2 =
        Format.JSON ∧
    ((("build/sky130A_tech.pb.json", Format.JSON) : String × Format).1 =
        "build/sky130A_tech.pb.json" ∨
     (("build/sky130A_tech.pb.json", Format.JSON) : String × Format).1 =
        "build/ihp_sg13g2_tech.pb.json") :=
  (claim_C8_amended {} {}).2.2 ("build/sky130A_tech.pb.json", Format.JSON)
    (by decide)

/-- C9: every stack-layer record produced by a construction call of either
family — the appending protobuf.cpp add functions or the populating
proto.cpp set functions — carries a layer_type tag that names exactly the
one variant sub-message the call populated: the add functions append exactly
one record, that record is the one the corresponding set call builds, and
every such record is well tagged. -/
theorem claim_C9_tag_payload_agree (psi : ProcessStackInfo)
    (li : StackLayerInfo) (op : StackOp) :
    (∃ l, (applyAddStackOp psi op).layers = psi.layers ++ [l] ∧
      WellTagged l) ∧
    WellTagged (applySetStackOp li op) := by
  constructor
  · cases op <;>
      exact ⟨_, rfl, by
        simp [applyAddStackOp, addSubstrateLayer, addNWellLayer,
          addDiffusionLayer, addFieldOxideLayer, addMetalLayer,
          addSidewallDielectric, addSimpleDielectric, addConformalDielectric,
          WellTagged, activeVariants]⟩
  · cases op <;>
      simp [applySetStackOp, setSubstrateLayer, setNWellLayer,
        setDiffusionLayer, setFieldOxideLayer, setMetalLayer,
        setSidewallDielectric, setSimpleDielectric, setConformalDielectric,
        WellTagged, activeVariants]

/-- C10: the four-argument addLayerResistance overload called with a zero
corner adjustment fraction appends a record identical to the one the
three-argument overload appends, and in general the corner adjustment field
is present on the appended record exactly when the supplied fraction is
nonzero. -/
theorem claim_C10_overload_equiv (ri : ResistanceInfo) (layer_name : String)
    (resistance caf : ℚ) :
    addLayerResistanceCorner ri layer_name resistance 0 =
      addLayerResistance ri layer_name resistance ∧
    ∃ lr, (addLayerResistanceCorner ri layer_name resistance caf).layers =
        ri.layers ++ [lr] ∧
      lr.layer_name = layer_name ∧ lr.resistance = resistance ∧
      (lr.corner_adjustment_fraction.isSome = true ↔ caf ≠ 0) := by
  constructor
  · simp [addLayerResistanceCorner, addLayerResistance]
  · refine ⟨_, rfl, rfl, rfl, ?_⟩
    by_cases h : caf = 0 <;> simp [addLayerResistanceCorner, h]

end KpexTech
